import Mathlib

/-!
# Widget core of the `ei` toolkit: frames, toplevels, drag gestures

A shallow embedding of `src/implem/ei_toplevel.c`, `src/implem/ei_frame.c`
and the declarations of `src/implem/ei_implementation.h`.

Representation choices.

* A C `int` is a Lean `Int`.  Signed overflow is undefined behaviour in C, so
  every statement below speaks about executions in which no `int` overflows.
* An `ei_widget_t` is a pointer: `null`, or the address of a record together
  with the record it points to.  The record carries the two owning pointers
  `children_head` and `next_sibling`; the non-owning back pointers `parent`
  and `children_tail` are not stored: a routine that reads `widget->parent`
  receives what it reads there as an argument.
* `content_rect` is an `ei_rect_t*`.  It either aliases the widget's own
  `screen_location` (`content_ptr.own`, which is what every assignment to the
  field in the sources stores) or designates a separately stored rectangle
  (`content_ptr.region`).  A store through the pointer in the aliasing case
  is a store to `screen_location`.
* Calls to routines of the drawing and hardware layers are recorded, in
  program order, in a list of `draw_op`.  `ei_impl_widget_draw_children` is
  declared in `ei_implementation.h` and defined outside the given sources:
  the call is recorded with its arguments, and the widget a routine returns
  is the widget as the statements of that routine leave it.
* A result `none` stands for a dereference of a null pointer.
-/

/-! ## Geometry and colours (`ei_types.h`) -/

structure ei_point_t where
  x : Int
  y : Int
deriving DecidableEq, Repr

structure ei_size_t where
  width : Int
  height : Int
deriving DecidableEq, Repr

structure ei_rect_t where
  top_left : ei_point_t
  size : ei_size_t
deriving DecidableEq, Repr

/-- Four 8-bit channels, each an `unsigned char`. -/
structure ei_color_t where
  red : Nat
  green : Nat
  blue : Nat
  alpha : Nat
deriving DecidableEq, Repr

inductive ei_relief_t where
  | ei_relief_none
  | ei_relief_raised
  | ei_relief_sunken
deriving DecidableEq, Repr

inductive ei_anchor_t where
  | ei_anc_none
  | ei_anc_center
  | ei_anc_north
  | ei_anc_northeast
  | ei_anc_east
  | ei_anc_southeast
  | ei_anc_south
  | ei_anc_southwest
  | ei_anc_west
  | ei_anc_northwest
deriving DecidableEq, Repr

inductive ei_axis_set_t where
  | ei_axis_none
  | ei_axis_x
  | ei_axis_y
  | ei_axis_both
deriving DecidableEq, Repr

/-! ## Events (`ei_event.h`) -/

inductive ei_eventtype_t where
  | ei_ev_none
  | ei_ev_app
  | ei_ev_close
  | ei_ev_exposed
  | ei_ev_keydown
  | ei_ev_keyup
  | ei_ev_mouse_buttondown
  | ei_ev_mouse_buttonup
  | ei_ev_mouse_move
deriving DecidableEq, Repr

inductive ei_mouse_button_t where
  | ei_mouse_button_left
  | ei_mouse_button_middle
  | ei_mouse_button_right
deriving DecidableEq, Repr

/-- An event with its mouse payload; `mouse_where` is `param.mouse.where`
and `button` is `param.mouse.button`. -/
structure ei_event_t where
  type : ei_eventtype_t
  mouse_where : ei_point_t
  button : ei_mouse_button_t
deriving DecidableEq, Repr

/-! ## Widgets (`ei_implementation.h`) -/

/-- The record `struct ei_impl_placer_params_t`.  The two `float` fields and
the two `float*` fields are kept as bit patterns resp. optional bit
patterns; no routine of the sources computes with them. -/
structure ei_impl_placer_params_t where
  x : Int
  y : Int
  width : Int
  height : Int
  rel_x : Nat
  rel_y : Nat
  rel_width : Option Nat
  rel_height : Option Nat
  anchor : ei_anchor_t
deriving DecidableEq, Repr

/-- What `calloc(1, sizeof(struct ei_impl_placer_params_t))` returns: every
field zero, every pointer null, the anchor the enumerator of value 0. -/
def placer_params_calloc : ei_impl_placer_params_t :=
  { x := 0, y := 0, width := 0, height := 0, rel_x := 0, rel_y := 0,
    rel_width := none, rel_height := none, anchor := .ei_anc_none }

/-- The target of the `content_rect` pointer. -/
inductive content_ptr where
  | own
  | region (r : ei_rect_t)
deriving DecidableEq, Repr

/-- The fields of `ei_impl_widget_t` other than the class and the hierarchy
pointers.  `user_data` and `my_param` are `void*` slots that the handlers
read as `ei_point_t*`; `none` is the null pointer. -/
structure ei_impl_widget_t where
  pick_id : Nat
  pick_color : ei_color_t
  user_data : Option ei_point_t
  placer_params : Option ei_impl_placer_params_t
  requested_size : ei_size_t
  screen_location : ei_rect_t
  content_rect : content_ptr
  my_param : Option ei_point_t
deriving DecidableEq, Repr

/-- The fields `ei_impl_frame_t` adds to the common record (those the
sources read or write).  `text_font` and `img` are opaque handles. -/
structure ei_impl_frame_t where
  color : ei_color_t
  border_width : Int
  relief : ei_relief_t
  text : Option String
  text_font : Nat
  text_color : ei_color_t
  text_anchor : ei_anchor_t
  img : Option Nat
  img_rect : Option ei_rect_t
  img_anchor : ei_anchor_t
deriving DecidableEq, Repr

/-- The fields `ei_impl_toplevel_t` adds to the common record. -/
structure ei_impl_toplevel_t where
  color : ei_color_t
  border_width : Int
  title : Option String
  closable : Bool
  resizable : ei_axis_set_t
  min_size : Option ei_size_t
deriving DecidableEq, Repr

/-- The class of a widget together with its class specific fields: the two
classes registered by `ei_frame_register` and `ei_toplevel_register`. -/
inductive widget_class where
  | frame (f : ei_impl_frame_t)
  | toplevel (t : ei_impl_toplevel_t)
deriving DecidableEq, Repr

/-- The string `wclass->name`. -/
def widget_class.name : widget_class → String
  | .frame _ => "frame"
  | .toplevel _ => "toplevel"

/-- A widget pointer with the subtree it owns. -/
inductive ei_widget_t where
  | null
  | node (addr : Nat) (w : ei_impl_widget_t) (cls : widget_class)
      (children_head : ei_widget_t) (next_sibling : ei_widget_t)
deriving DecidableEq, Repr

/-- The pointer value: `none` for `NULL`. -/
def ei_widget_t.ptr : ei_widget_t → Option Nat
  | .null => none
  | .node a _ _ _ _ => some a

/-! ## Calls into the drawing and hardware layers -/

/-- The surfaces the routines name: the root surface (the `surface` argument
of a draw routine), the picking offscreen (`pick_surface`), the image of a
frame. -/
inductive surface_t where
  | real
  | pick
  | image (h : Nat)
deriving DecidableEq, Repr

inductive draw_op where
  | hw_surface_lock (s : surface_t)
  | hw_surface_unlock (s : surface_t)
  | hw_surface_update_rects (s : surface_t)
  | hw_text_create_surface (text : String) (font : Option Nat) (color : Option ei_color_t)
  | hw_surface_free_text
  | ei_fill (s : surface_t) (color : ei_color_t) (clipper : Option ei_rect_t)
  | ei_draw_frame (s : surface_t) (rect : ei_rect_t) (color : ei_color_t)
      (relief : ei_relief_t) (clipper : ei_rect_t)
  | ei_draw_text (s : surface_t) (pos : ei_point_t) (text : String) (font : Option Nat)
      (color : Option ei_color_t) (clipper : ei_rect_t)
  | ei_rect_cpy (dst : surface_t) (dst_rect : ei_rect_t) (src : surface_t)
      (src_rect : ei_rect_t) (alpha : Bool)
  | ei_impl_widget_draw_children (widget : Option Nat) (clipper : Option ei_rect_t)
deriving DecidableEq, Repr

/-- The two collaborators whose results the draw routines only pass on: the
rectangle of the surface the text backend makes for a string
(`hw_surface_get_rect (hw_text_create_surface ...)`), and
`ei_anchor_text_img`. -/
structure text_backend where
  text_rect : String → ei_rect_t
  ei_anchor_text_img : ei_anchor_t → ei_rect_t → ei_rect_t → ei_point_t

/-! ## Rectangle algebra -/

/-- Modelled from the spec: `ei_rect_intersect`, declared in
`ei_implementation.h` and defined outside the given sources.  The largest
rectangle contained in both arguments; the zero rectangle when they do not
overlap. -/
def ei_rect_intersect (rect1 rect2 : ei_rect_t) : ei_rect_t :=
  let x0 := max rect1.top_left.x rect2.top_left.x
  let y0 := max rect1.top_left.y rect2.top_left.y
  let x1 := min (rect1.top_left.x + rect1.size.width) (rect2.top_left.x + rect2.size.width)
  let y1 := min (rect1.top_left.y + rect1.size.height) (rect2.top_left.y + rect2.size.height)
  if x0 < x1 ∧ y0 < y1 then
    { top_left := { x := x0, y := y0 }, size := { width := x1 - x0, height := y1 - y0 } }
  else
    { top_left := { x := 0, y := 0 }, size := { width := 0, height := 0 } }

/-- Modelled from the spec: `ei_in_rect`, declared in `ei_implementation.h`
and defined outside the given sources.  Half-open containment on both
axes. -/
def ei_in_rect (point : ei_point_t) (rect : ei_rect_t) : Bool :=
  decide (rect.top_left.x ≤ point.x ∧ point.x < rect.top_left.x + rect.size.width ∧
    rect.top_left.y ≤ point.y ∧ point.y < rect.top_left.y + rect.size.height)

/-! ## Assignments to one field of a rectangle -/

/-- The rectangle after `r.top_left.x = v`. -/
def ei_rect_t.set_x (r : ei_rect_t) (v : Int) : ei_rect_t :=
  { top_left := { x := v, y := r.top_left.y }, size := r.size }

/-- The rectangle after `r.top_left.y = v`. -/
def ei_rect_t.set_y (r : ei_rect_t) (v : Int) : ei_rect_t :=
  { top_left := { x := r.top_left.x, y := v }, size := r.size }

/-- The rectangle after `r.size.width = v`. -/
def ei_rect_t.set_width (r : ei_rect_t) (v : Int) : ei_rect_t :=
  { top_left := r.top_left, size := { width := v, height := r.size.height } }

/-- The rectangle after `r.size.height = v`. -/
def ei_rect_t.set_height (r : ei_rect_t) (v : Int) : ei_rect_t :=
  { top_left := r.top_left, size := { width := r.size.width, height := v } }

/-! ## Mixed `int` / `double` expressions

The sources multiply an `int` by a decimal literal and store the product in
an `int`: the product is formed in `double` (IEEE 754 binary64, rounding to
nearest, ties to even) and truncated toward zero by the store.

The literals `0.1` and `0.2` are the doubles `(1 + 2^-54) / 10` and
`(1 + 2^-54) / 5`, and `0.06` lies within `2^-54` (relative) of the decimal
value.  For a 32-bit operand the rounded product is therefore the exact
quotient when that is an integer, and otherwise lies strictly between the
same two integers as the exact quotient: the stored value is the truncated
exact quotient, which is what `scale_0_1`, `scale_0_06` and `add_scaled_0_2`
compute.

The literal `0.7` is the double `3152519739159347 / 2^52`, further from the
decimal value: `0.7 * 90` rounds to a double below 63.  `scale_0_7` carries
out the rounding. -/

/-- The stored value of `0.1 * h`. -/
def scale_0_1 (h : Int) : Int := Int.tdiv h 10

/-- The stored value of `0.06 * h`. -/
def scale_0_06 (h : Int) : Int := Int.tdiv (3 * h) 50

/-- The stored value of `a += 0.2 * d` for `int a, d`. -/
def add_scaled_0_2 (a d : Int) : Int := Int.tdiv (5 * a + d) 5

/-- The number of low bits to drop from `n` to leave at most 53, for `n`
below `2 ^ (53 + fuel)`. -/
def excess_bits : Nat → Nat → Nat
  | 0, _ => 0
  | fuel + 1, n => if n < 2 ^ 53 then 0 else excess_bits fuel (n / 2) + 1

/-- The natural number `n` rounded to 53 significant bits, to nearest, ties
to even (for `n` below `2 ^ 117`). -/
def round_53 (n : Nat) : Nat :=
  let sh := excess_bits 64 n
  let q := n / 2 ^ sh
  let r := n % 2 ^ sh
  if 2 * r > 2 ^ sh ∨ (2 * r = 2 ^ sh ∧ q % 2 = 1) then (q + 1) * 2 ^ sh else q * 2 ^ sh

/-- The stored value of `0.7 * c` for an `unsigned char c`: the double
product of `c` and `3152519739159347 / 2^52`, truncated. -/
def scale_0_7 (c : Nat) : Nat := round_53 (c * 3152519739159347) / 2 ^ 52

/-! ## Loads and stores through `content_rect` -/

/-- The rectangle `*w->content_rect`. -/
def ei_impl_widget_t.content (w : ei_impl_widget_t) : ei_rect_t :=
  match w.content_rect with
  | .own => w.screen_location
  | .region r => r

/-- The store `*w->content_rect = r`. -/
def ei_impl_widget_t.store_content (w : ei_impl_widget_t) (r : ei_rect_t) : ei_impl_widget_t :=
  match w.content_rect with
  | .own => { w with screen_location := r }
  | .region _ => { w with content_rect := .region r }

/-! ## `ei_toplevel.c`: geometry updates -/

/-- The assignments of `ei_toplevel_moving_update` to the fields of one
widget (lines 216 to 220), in program order. -/
def moving_update_fields (w : ei_impl_widget_t) (dx dy : Int) : ei_impl_widget_t :=
  let w1 := { w with screen_location := w.screen_location.set_x (w.screen_location.top_left.x + dx) }
  let w2 := { w1 with screen_location := w1.screen_location.set_y (w1.screen_location.top_left.y + dy) }
  let w3 := w2.store_content (w2.content.set_x (w2.content.top_left.x + dx))
  let w4 := w3.store_content (w3.content.set_y (w3.content.top_left.y + dy))
  { w4 with placer_params := some placer_params_calloc }

/-- The loop of `ei_toplevel_moving_update` over a chain of siblings: the
routine is applied to the child, then to `child->next_sibling`. -/
def moving_update_children : ei_widget_t → Int → Int → ei_widget_t
  | .null, _, _ => .null
  | .node a w c h s, dx, dy =>
      .node a (moving_update_fields w dx dy) c
        (moving_update_children h dx dy) (moving_update_children s dx dy)

/-- The routine `ei_toplevel_moving_update`. -/
def ei_toplevel_moving_update : ei_widget_t → Int → Int → ei_widget_t
  | .null, _, _ => .null
  | .node a w c h s, dx, dy =>
      .node a (moving_update_fields w dx dy) c (moving_update_children h dx dy) s

/-- The assignments of `ei_toplevel_resizing_update` to the fields of one
widget (lines 180 to 196), in program order.  `strcmp` is non-zero for every
class other than the toplevel class. -/
def resizing_update_fields (cls : widget_class) (w : ei_impl_widget_t) (dx dy : Int) :
    ei_impl_widget_t :=
  match cls with
  | .frame _ =>
    let w1 := { w with screen_location :=
      w.screen_location.set_width (add_scaled_0_2 w.screen_location.size.width dx) }
    let w2 := { w1 with screen_location :=
      w1.screen_location.set_height (add_scaled_0_2 w1.screen_location.size.height dy) }
    let w3 := w2.store_content (w2.content.set_width (add_scaled_0_2 w2.content.size.width dx))
    let w4 := w3.store_content (w3.content.set_height (add_scaled_0_2 w3.content.size.height dy))
    let w5 := w4.store_content (w4.content.set_x (w4.content.top_left.x + 2 * dx))
    let w6 := w5.store_content (w5.content.set_y (w5.content.top_left.y + 2 * dy))
    { w6 with placer_params := some placer_params_calloc }
  | .toplevel _ =>
    let w1 := { w with screen_location :=
      w.screen_location.set_width (w.screen_location.size.width + dx) }
    let w2 := { w1 with screen_location :=
      w1.screen_location.set_height (w1.screen_location.size.height + dy) }
    let w3 := w2.store_content (w2.content.set_width (w2.content.size.width + dx))
    let w4 := w3.store_content (w3.content.set_height (w3.content.size.height + dy))
    { w4 with placer_params := some placer_params_calloc }

/-- The loop of `ei_toplevel_resizing_update` over a chain of siblings. -/
def resizing_update_children : ei_widget_t → Int → Int → ei_widget_t
  | .null, _, _ => .null
  | .node a w c h s, dx, dy =>
      .node a (resizing_update_fields c w dx dy) c
        (resizing_update_children h dx dy) (resizing_update_children s dx dy)

/-- The routine `ei_toplevel_resizing_update`. -/
def ei_toplevel_resizing_update : ei_widget_t → Int → Int → ei_widget_t
  | .null, _, _ => .null
  | .node a w c h s, dx, dy =>
      .node a (resizing_update_fields c w dx dy) c (resizing_update_children h dx dy) s

/-- Modelled from the spec: `ei_placer_forget`, defined outside the given
sources.  It detaches the widget from automatic placement: the widget has no
placer parameters afterwards. -/
def ei_placer_forget : ei_widget_t → ei_widget_t
  | .null => .null
  | .node a w c h s => .node a { w with placer_params := none } c h s

/-! ## `ei_toplevel.c`: drawing -/

/-- The body of the `while (child)` loop of `toplevel_drawfunc` for the
children after the first (lines 81, 84, 85). -/
def toplevel_draw_next_children (content : ei_rect_t) : ei_widget_t → ei_widget_t
  | .null => .null
  | .node a w c h s =>
      .node a { w with screen_location := ei_rect_intersect content w.screen_location,
                       content_rect := .own } c h
        (toplevel_draw_next_children content s)

/-- The `while (child)` loop of `toplevel_drawfunc` (lines 60 to 86), run on
`widget->children_head`; `loc` is `widget->screen_location`, which
`widget->content_rect` designates at that point. -/
def toplevel_draw_children_loop (loc : ei_rect_t) : ei_widget_t → ei_widget_t
  | .null => .null
  | .node a w c h s =>
      let size_resize := scale_0_06 loc.size.height
      let bottom_right_resize : ei_point_t :=
        { x := loc.top_left.x + loc.size.width, y := loc.top_left.y + loc.size.height }
      .node a { w with
          screen_location :=
            { top_left := { x := bottom_right_resize.x - size_resize,
                            y := bottom_right_resize.y - size_resize },
              size := { width := size_resize, height := size_resize } },
          content_rect := .own } c h
        (toplevel_draw_next_children loc s)

/-- The colour of the title strip (lines 45 to 49). -/
def toplevel_strip_color (color : ei_color_t) : ei_color_t :=
  { red := scale_0_7 color.red, green := scale_0_7 color.green,
    blue := scale_0_7 color.blue, alpha := color.alpha }

/-- The routine `toplevel_drawfunc`.  `parent_content` is `none` when
`widget->parent` is `NULL` and otherwise the rectangle
`*widget->parent->content_rect`.  The result is the widget after the call
and the calls issued.  The routine reads its argument as a toplevel; on a
widget of another class the downcast is invalid and the model gives
`none`. -/
def toplevel_drawfunc (tb : text_backend) (parent_content : Option ei_rect_t)
    (widget : ei_widget_t) (clipper : Option ei_rect_t) :
    Option (ei_widget_t × List draw_op) :=
  match widget with
  | .null => none
  | .node _ _ (.frame _) _ _ => none
  | .node a w (.toplevel toplevel) h s =>
    match parent_content with
    | none =>
      some (widget,
        [ .ei_fill .real toplevel.color clipper,
          .ei_fill .pick w.pick_color clipper,
          .ei_impl_widget_draw_children h.ptr clipper ])
    | some parent_rect =>
      match w.placer_params with
      | some _ =>
        let widget_rect := w.screen_location
        let toplevel_clipper :=
          match clipper with
          | some c => ei_rect_intersect parent_rect c
          | none => parent_rect
        let toplevel_widget_rect : ei_rect_t :=
          widget_rect.set_height (scale_0_1 widget_rect.size.height)
        let toplevel_color := toplevel_strip_color toplevel.color
        let new_screen_loc := ei_rect_intersect widget_rect toplevel_clipper
        let w1 := { w with screen_location := new_screen_loc, content_rect := .own }
        let h1 := toplevel_draw_children_loop w1.screen_location h
        let txt_clipper0 := ei_rect_intersect toplevel_widget_rect toplevel_clipper
        let txt_clipper :=
          match clipper with
          | some c => ei_rect_intersect txt_clipper0 c
          | none => txt_clipper0
        let text_ops : List draw_op :=
          match toplevel.title with
          | some title =>
            let txt_rect := tb.text_rect title
            let pos := tb.ei_anchor_text_img .ei_anc_west txt_rect txt_clipper
            [ .hw_text_create_surface title none none,
              .ei_draw_text .real pos title none
                (some { red := 0xDD, green := 0xDD, blue := 0xDD, alpha := 0xFF }) txt_clipper,
              .hw_surface_free_text ]
          | none => []
        some (.node a w1 (.toplevel toplevel) h1 s,
          [ .ei_draw_frame .real widget_rect toplevel.color .ei_relief_none toplevel_clipper,
            .ei_draw_frame .pick widget_rect w.pick_color .ei_relief_none toplevel_clipper,
            .ei_draw_frame .real toplevel_widget_rect toplevel_color .ei_relief_none
              toplevel_clipper ]
          ++ text_ops ++ [ .ei_impl_widget_draw_children h.ptr clipper ])
      | none =>
        match h with
        | .null => none
        | .node _ _ _ _ hs => some (widget, [ .ei_impl_widget_draw_children hs.ptr clipper ])

/-! ## `ei_frame.c`: drawing -/

/-- The `while (child)` loop of `frame_drawfunc` (lines 55 to 58). -/
def frame_draw_children_loop : ei_widget_t → ei_widget_t
  | .null => .null
  | .node a w c h s => .node a { w with content_rect := .own } c h (frame_draw_children_loop s)

/-- The routine `frame_drawfunc`, with the conventions of
`toplevel_drawfunc`. -/
def frame_drawfunc (tb : text_backend) (parent_content : Option ei_rect_t)
    (widget : ei_widget_t) (clipper : Option ei_rect_t) :
    Option (ei_widget_t × List draw_op) :=
  match widget with
  | .null => none
  | .node _ _ (.toplevel _) _ _ => none
  | .node a w (.frame frame) h s =>
    match parent_content with
    | none =>
      some (widget,
        [ .ei_fill .real frame.color clipper,
          .ei_fill .pick w.pick_color clipper,
          .ei_impl_widget_draw_children (some a) clipper ])
    | some parent_rect =>
      match w.placer_params with
      | some _ =>
        let widget_rect := w.screen_location
        let frame_clipper :=
          match clipper with
          | some c => ei_rect_intersect parent_rect c
          | none => parent_rect
        let w1 := { w with content_rect := .own }
        let h1 := frame_draw_children_loop h
        let text_img_clipper0 := ei_rect_intersect widget_rect frame_clipper
        let text_img_clipper :=
          match clipper with
          | some c => ei_rect_intersect text_img_clipper0 c
          | none => text_img_clipper0
        let content_ops : Option (List draw_op) :=
          match frame.text with
          | some text =>
            let text_rect := tb.text_rect text
            let pos := tb.ei_anchor_text_img frame.text_anchor text_rect widget_rect
            some [ .hw_text_create_surface text (some frame.text_font) (some frame.text_color),
                   .ei_draw_text .real pos text (some frame.text_font) (some frame.text_color)
                     text_img_clipper,
                   .hw_surface_free_text ]
          | none =>
            match frame.img with
            | some img =>
              match frame.img_rect with
              | none => none
              | some src_rect =>
                let img_rect : ei_rect_t := { src_rect with top_left := text_img_clipper.top_left }
                let dst : ei_rect_t :=
                  { text_img_clipper with
                    top_left := tb.ei_anchor_text_img frame.img_anchor img_rect text_img_clipper }
                some [ .hw_surface_lock (.image img),
                       .ei_rect_cpy .real dst (.image img) src_rect true,
                       .hw_surface_unlock (.image img) ]
            | none => some []
        match content_ops with
        | none => none
        | some ops =>
          let new_clipper := ei_rect_intersect frame_clipper w1.content
          some (.node a w1 (.frame frame) h1 s,
            [ .ei_draw_frame .real widget_rect frame.color frame.relief frame_clipper,
              .ei_draw_frame .pick widget_rect w.pick_color .ei_relief_none frame_clipper ]
            ++ ops ++ [ .ei_impl_widget_draw_children (some a) (some new_clipper) ])
      | none => some (widget, [])

/-- The call `widget->wclass->drawfunc (widget, ...)`: the draw routine each
class registers. -/
def wclass_drawfunc (tb : text_backend) (parent_content : Option ei_rect_t)
    (widget : ei_widget_t) (clipper : Option ei_rect_t) :
    Option (ei_widget_t × List draw_op) :=
  match widget with
  | .null => none
  | .node _ _ (.frame _) _ _ => frame_drawfunc tb parent_content widget clipper
  | .node _ _ (.toplevel _) _ _ => toplevel_drawfunc tb parent_content widget clipper

/-! ## Event handlers -/

/-- The process-wide state the handlers share: the active widget of
`ei_event_set_active_widget` / `ei_event_get_active_widget` (a widget
pointer), the toggle `moving` of `ei_toplevel.c` and the toggle `resize` of
`ei_frame.c`. -/
structure globals where
  active : Option Nat
  moving : Bool
  resize : Bool
deriving DecidableEq, Repr

/-- The state at program start: the initialisers of the two toggles, no
active widget. -/
def globals_init : globals := { active := none, moving := false, resize := false }

/-- The two lock calls `ei_toplevel_handlefunc` and `frame_handlefunc` start
with. -/
def handler_locks : List draw_op := [ .hw_surface_lock .real, .hw_surface_lock .pick ]

/-- The calls `frame_handlefunc` ends with (lines 148 to 151). -/
def handler_unlocks : List draw_op :=
  [ .hw_surface_unlock .real, .hw_surface_unlock .pick, .hw_surface_update_rects .real ]

/-- The capture region the button-down branch of `ei_toplevel_handlefunc`
tests (lines 124, 125): `widget->screen_location` with its height replaced
by `0.1 * height`. -/
def toplevel_capture_rect (w : ei_impl_widget_t) : ei_rect_t :=
  w.screen_location.set_height (scale_0_1 w.screen_location.size.height)

/-- The routine `ei_toplevel_handlefunc`.  `parent_content` is what the draw
routine reads through `widget->parent`.  The result is the shared state and
the widget after the call, and the calls issued. -/
def ei_toplevel_handlefunc (tb : text_backend) (parent_content : Option ei_rect_t)
    (g : globals) (widget : ei_widget_t) (event : ei_event_t) :
    Option (globals × ei_widget_t × List draw_op) :=
  match widget with
  | .null => none
  | .node a w _ _ _ =>
    let locks := handler_locks
    let toplevel_rect := toplevel_capture_rect w
    match event.type with
    | .ei_ev_mouse_buttondown =>
      if event.button = .ei_mouse_button_left ∧ ei_in_rect event.mouse_where toplevel_rect = true then
        some ({ g with active := some a }, widget, locks)
      else
        some (g, widget, locks)
    | .ei_ev_mouse_buttonup => some ({ g with active := none }, widget, locks)
    | .ei_ev_mouse_move =>
      if g.active = some a then
        match w.user_data with
        | none => none
        | some anchor_point =>
          let dx := event.mouse_where.x - anchor_point.x
          let dy := event.mouse_where.y - anchor_point.y
          if g.moving = true then
            let widget1 := ei_placer_forget widget
            let widget2 := ei_toplevel_moving_update widget1 dx dy
            match wclass_drawfunc tb parent_content widget2 none with
            | none => none
            | some (widget3, ops) =>
              some ({ g with moving := !g.moving }, widget3,
                locks ++ [ .hw_surface_unlock .real, .hw_surface_unlock .pick,
                           .hw_surface_update_rects .real,
                           .hw_surface_lock .real, .hw_surface_lock .pick ] ++ ops)
          else
            some ({ g with moving := !g.moving }, widget, locks)
      else
        some (g, widget, locks)
    | _ => some (g, widget, locks)

/-- The clamp of the pointer delta by the `resizable` axis set of the
toplevel (the inner `switch` of `frame_handlefunc`, lines 120 to 133). -/
def resize_clamp (resizable : ei_axis_set_t) (dx dy : Int) : Int × Int :=
  match resizable with
  | .ei_axis_x => (dx, 0)
  | .ei_axis_y => (0, dy)
  | .ei_axis_none => (0, 0)
  | .ei_axis_both => (dx, dy)

/-- The routine `frame_handlefunc`, called on the widget of address
`widget`.  `parent` is `widget->parent` with the subtree it owns (the
called widget is among its children), `grand_content` is what the draw
routine of the parent reads through `widget->parent->parent`.  The routine
calls `ei_toplevel_resize_update`, which the given sources do not define: it
is the argument `resize_update`.  The result is the shared state and the
parent after the call, and the calls issued. -/
def frame_handlefunc (resize_update : ei_widget_t → Int → Int → ei_widget_t)
    (tb : text_backend) (grand_content : Option ei_rect_t)
    (g : globals) (parent : ei_widget_t) (widget : Nat) (event : ei_event_t) :
    Option (globals × ei_widget_t × List draw_op) :=
  match parent with
  | .null => some (g, parent, [])
  | .node _ _ (.frame _) _ _ => some (g, parent, [])
  | .node _ _ (.toplevel _) .null _ => some (g, parent, [])
  | .node _ _ (.toplevel toplevel) (.node a w _ _ _) _ =>
    if a = widget then
      let locks := handler_locks
      let unlocks := handler_unlocks
      let toplevel_rect := w.screen_location
      match event.type with
      | .ei_ev_mouse_buttondown =>
        if event.button = .ei_mouse_button_left ∧ ei_in_rect event.mouse_where toplevel_rect = true then
          some ({ g with active := some widget }, parent, locks ++ unlocks)
        else
          some (g, parent, locks ++ unlocks)
      | .ei_ev_mouse_buttonup => some ({ g with active := none }, parent, locks ++ unlocks)
      | .ei_ev_mouse_move =>
        if g.active = some widget then
          match w.my_param with
          | none => none
          | some anchor_point =>
            let d := resize_clamp toplevel.resizable
              (event.mouse_where.x - anchor_point.x) (event.mouse_where.y - anchor_point.y)
            if g.resize = true then
              let parent1 := ei_placer_forget parent
              let parent2 := resize_update parent1 d.1 d.2
              match wclass_drawfunc tb grand_content parent2 none with
              | none => none
              | some (parent3, ops) =>
                some ({ g with resize := !g.resize }, parent3, locks ++ ops ++ unlocks)
            else
              some ({ g with resize := !g.resize }, parent, locks ++ unlocks)
        else
          some (g, parent, locks ++ unlocks)
      | _ => some (g, parent, locks ++ unlocks)
    else
      some (g, parent, [])

/-- The handler run on a sequence of events delivered to the same toplevel,
one after the other. -/
def toplevel_run (tb : text_backend) (parent_content : Option ei_rect_t) :
    globals → ei_widget_t → List ei_event_t → Option (globals × ei_widget_t)
  | g, widget, [] => some (g, widget)
  | g, widget, event :: events =>
    match ei_toplevel_handlefunc tb parent_content g widget event with
    | none => none
    | some (g1, widget1, _) => toplevel_run tb parent_content g1 widget1 events

/-- The screen location of the widget a pointer designates. -/
def ei_widget_t.screen_location : ei_widget_t → Option ei_rect_t
  | .null => none
  | .node _ w _ _ _ => some w.screen_location

/-- The screen location of the toplevel after a sequence of events. -/
def toplevel_location_after (tb : text_backend) (parent_content : Option ei_rect_t)
    (g : globals) (widget : ei_widget_t) (events : List ei_event_t) : Option ei_rect_t :=
  match toplevel_run tb parent_content g widget events with
  | none => none
  | some (_, widget1) => widget1.screen_location

/-! ## Sample data -/

/-- A text backend that sizes every string as 8 by 16 pixels per character
and anchors at the top left of the limit. -/
def sample_backend : text_backend :=
  { text_rect := fun text =>
      { top_left := { x := 0, y := 0 }, size := { width := 8 * text.length, height := 16 } },
    ei_anchor_text_img := fun _ _ limit => limit.top_left }

def sample_color : ei_color_t := { red := 200, green := 100, blue := 50, alpha := 255 }

def sample_frame_fields : ei_impl_frame_t :=
  { color := sample_color, border_width := 0, relief := .ei_relief_raised, text := none,
    text_font := 0, text_color := { red := 0, green := 0, blue := 0, alpha := 255 },
    text_anchor := .ei_anc_center, img := none, img_rect := none, img_anchor := .ei_anc_center }

def sample_toplevel_fields : ei_impl_toplevel_t :=
  { color := sample_color, border_width := 4, title := some "Toplevel", closable := true,
    resizable := .ei_axis_both, min_size := some { width := 160, height := 120 } }

/-- A placed widget record at `loc` whose `content_rect` designates its own
`screen_location` and whose two anchor slots hold the point (0, 0). -/
def sample_record (pick_id : Nat) (loc : ei_rect_t) : ei_impl_widget_t :=
  { pick_id := pick_id, pick_color := { red := pick_id, green := 0, blue := 0, alpha := 255 },
    user_data := some { x := 0, y := 0 }, placer_params := some placer_params_calloc,
    requested_size := loc.size, screen_location := loc, content_rect := .own,
    my_param := some { x := 0, y := 0 } }

/-- The resize grip of the sample toplevel: a frame at address 2. -/
def sample_grip : ei_widget_t :=
  .node 2 (sample_record 2 { top_left := { x := 204, y := 104 }, size := { width := 6, height := 6 } })
    (.frame sample_frame_fields) .null .null

/-- A toplevel at address 1, at (10, 10), 200 wide and 100 high, with its
resize grip as only child. -/
def sample_toplevel : ei_widget_t :=
  .node 1 (sample_record 1 { top_left := { x := 10, y := 10 }, size := { width := 200, height := 100 } })
    (.toplevel sample_toplevel_fields) sample_grip .null

/-- The sample toplevel, resizable along the horizontal axis only. -/
def sample_toplevel_x : ei_widget_t :=
  .node 1 (sample_record 1 { top_left := { x := 10, y := 10 }, size := { width := 200, height := 100 } })
    (.toplevel { sample_toplevel_fields with resizable := .ei_axis_x }) sample_grip .null

/-- A placed frame at address 4, child of the unplaced sample frame. -/
def sample_placed_child : ei_widget_t :=
  .node 4 (sample_record 4 { top_left := { x := 30, y := 30 }, size := { width := 40, height := 20 } })
    (.frame sample_frame_fields) .null .null

/-- A frame at address 3 with no placer parameters and a placed child. -/
def sample_unplaced_frame : ei_widget_t :=
  .node 3
    { sample_record 3 { top_left := { x := 20, y := 20 }, size := { width := 100, height := 80 } }
      with placer_params := none }
    (.frame sample_frame_fields) sample_placed_child .null

/-- The unplaced sample frame, placed. -/
def sample_placed_frame : ei_widget_t :=
  .node 3 (sample_record 3 { top_left := { x := 20, y := 20 }, size := { width := 100, height := 80 } })
    (.frame sample_frame_fields) sample_placed_child .null

/-- A toplevel at address 5 with no placer parameters, a grip and a second
child. -/
def sample_unplaced_toplevel : ei_widget_t :=
  .node 5
    { sample_record 5 { top_left := { x := 20, y := 20 }, size := { width := 100, height := 80 } }
      with placer_params := none }
    (.toplevel sample_toplevel_fields)
    (.node 6 (sample_record 6 { top_left := { x := 0, y := 0 }, size := { width := 0, height := 0 } })
      (.frame sample_frame_fields) .null sample_placed_child)
    .null

/-- A caller clip: the rectangle at (0, 0), 150 wide and 60 high. -/
def sample_clip : ei_rect_t :=
  { top_left := { x := 0, y := 0 }, size := { width := 150, height := 60 } }

/-- The content rectangle of the parent of the sample toplevel: an 800 by
600 root. -/
def sample_parent_content : Option ei_rect_t :=
  some { top_left := { x := 0, y := 0 }, size := { width := 800, height := 600 } }

def ev_down (x y : Int) : ei_event_t :=
  { type := .ei_ev_mouse_buttondown, mouse_where := { x := x, y := y },
    button := .ei_mouse_button_left }

def ev_up (x y : Int) : ei_event_t :=
  { type := .ei_ev_mouse_buttonup, mouse_where := { x := x, y := y },
    button := .ei_mouse_button_left }

def ev_move (x y : Int) : ei_event_t :=
  { type := .ei_ev_mouse_move, mouse_where := { x := x, y := y },
    button := .ei_mouse_button_left }

/-! ## Observations on a widget tree -/

/-- The height-relevant geometry of one widget: the height and the ordinate
of `screen_location`, the height and the ordinate of `*content_rect`. -/
def vertical_fields (w : ei_impl_widget_t) : Int × Int × Int × Int :=
  (w.screen_location.size.height, w.screen_location.top_left.y,
    w.content.size.height, w.content.top_left.y)

/-- The height-relevant geometry of every widget of a chain of siblings and
of their descendants, each with its address, in preorder. -/
def chain_vertical_geometry : ei_widget_t → List (Nat × Int × Int × Int × Int)
  | .null => []
  | .node a w _ h s =>
      (a, vertical_fields w) :: (chain_vertical_geometry h ++ chain_vertical_geometry s)

/-- The height-relevant geometry of a widget and of every widget of its
subtree, each with its address, in preorder. -/
def vertical_geometry : ei_widget_t → List (Nat × Int × Int × Int × Int)
  | .null => []
  | .node a w _ h _ => (a, vertical_fields w) :: chain_vertical_geometry h

/-- The anchor slot `user_data` of the widget a pointer designates. -/
def ei_widget_t.user_data : ei_widget_t → Option ei_point_t
  | .null => none
  | .node _ w _ _ _ => w.user_data

/-- The anchor slot `my_param` of the first child of a widget. -/
def ei_widget_t.head_my_param : ei_widget_t → Option ei_point_t
  | .node _ _ _ (.node _ gw _ _ _) _ => gw.my_param
  | _ => none

/-- A paint on the real surface: the rectangle the call names, when it names
one, and the clip rectangle it is given, when it is given one. -/
def draw_op.real_paint : draw_op → Option (Option ei_rect_t × Option ei_rect_t)
  | .ei_fill .real _ clipper => some (none, clipper)
  | .ei_draw_frame .real rect _ _ clipper => some (some rect, some clipper)
  | .ei_draw_text .real _ _ _ _ clipper => some (none, some clipper)
  | .ei_rect_cpy .real dst_rect _ _ _ => some (some dst_rect, none)
  | _ => none

/-- Whether a call paints on the picking surface. -/
def draw_op.on_pick : draw_op → Bool
  | .ei_fill .pick _ _ => true
  | .ei_draw_frame .pick _ _ _ _ => true
  | .ei_draw_text .pick _ _ _ _ _ => true
  | .ei_rect_cpy .pick _ _ _ _ => true
  | _ => false

/-- Whether a call is the picking counterpart of a paint on the real surface
with the given rectangle and clip: a flat fill of the picking surface with
`pick_color`, no relief, under the same clip, and of the same rectangle when
the paint names one. -/
def draw_op.pick_match (pick_color : ei_color_t)
    (target : Option ei_rect_t × Option ei_rect_t) : draw_op → Bool
  | .ei_fill .pick color clipper =>
      decide (color = pick_color ∧ target.1 = none ∧ target.2 = clipper)
  | .ei_draw_frame .pick rect color relief clipper =>
      decide (color = pick_color ∧ relief = .ei_relief_none ∧ target.2 = some clipper ∧
        (target.1 = none ∨ target.1 = some rect))
  | _ => false

/-- The lockstep property of a list of calls: every paint on the real
surface has a picking counterpart in the list. -/
def picking_lockstep (pick_color : ei_color_t) (ops : List draw_op) : Prop :=
  ∀ op ∈ ops, ∀ target, op.real_paint = some target →
    ∃ op1 ∈ ops, op1.pick_match pick_color target = true

/-- Every widget of a chain of siblings and of their descendants, each with
its address, in preorder. -/
def chain_widgets : ei_widget_t → List (Nat × ei_impl_widget_t)
  | .null => []
  | .node a w _ h s => (a, w) :: (chain_widgets h ++ chain_widgets s)

/-- A widget and every widget of its subtree, each with its address, in
preorder. -/
def subtree_widgets : ei_widget_t → List (Nat × ei_impl_widget_t)
  | .null => []
  | .node a w _ h _ => (a, w) :: chain_widgets h

/-- The placer parameters of a widget and of every widget of its subtree. -/
def subtree_placer_params (widget : ei_widget_t) :
    List (Nat × Option ei_impl_placer_params_t) :=
  (subtree_widgets widget).map (fun p => (p.1, p.2.placer_params))

/-- One statement `color_32 += channel << 8*i` of `ei_impl_map_rgba`.  The
channel is an `unsigned char` promoted to `int`, the sum is formed in
`uint32_t`: the stored value is the sum modulo `2^32`.  For a channel of 128
or more shifted by 24 bits the shift leaves the range of `int`; the model
takes the two's complement bits, which the conversion to `uint32_t` turns
into the product modulo `2^32`. -/
def map_rgba_add (color_32 channel i : Nat) : Nat :=
  (color_32 + channel * 2 ^ (8 * i)) % 2 ^ 32

/-- The body of the `for` loop of `ei_impl_map_rgba` for the index `i`
(lines 34 to 37). -/
def map_rgba_iteration (ir ig ib ia : Int) (color : ei_color_t) (color_32 i : Nat) : Nat :=
  let c1 := if ir = (i : Int) then map_rgba_add color_32 color.red i else color_32
  let c2 := if ig = (i : Int) then map_rgba_add c1 color.green i else c1
  let c3 := if ib = (i : Int) then map_rgba_add c2 color.blue i else c2
  if ia = (i : Int) then map_rgba_add c3 color.alpha i else c3

/-- The routine `ei_impl_map_rgba`.  `ir`, `ig`, `ib`, `ia` are the channel
indices `hw_surface_get_channel_indices` stores for the surface. -/
def ei_impl_map_rgba (ir ig ib ia : Int) (color : ei_color_t) : Nat :=
  [0, 1, 2, 3].foldl (map_rgba_iteration ir ig ib ia color) 0

/-! ## `ei_widget_configure.c` -/

/-- The arguments of `ei_frame_configure` after the widget: each is a
pointer, `none` for `NULL`.  `img` points to a surface handle and `img_rect`
to a rectangle pointer, each of which may itself be null. -/
structure frame_configure_args where
  requested_size : Option ei_size_t
  color : Option ei_color_t
  border_width : Option Int
  relief : Option ei_relief_t
  text : Option String
  text_font : Option Nat
  text_color : Option ei_color_t
  text_anchor : Option ei_anchor_t
  img : Option (Option Nat)
  img_rect : Option (Option ei_rect_t)
  img_anchor : Option ei_anchor_t
deriving DecidableEq, Repr

/-- The routine `ei_frame_configure`.  `has_parent` tells whether
`widget->parent` is not `NULL`; `fresh` is the content of the block `malloc`
returns when the routine allocates placer parameters (the block is not
initialised; the allocation is taken to succeed).  The routine reads its
argument as a frame; on another widget the model gives `none`.  The copy of
the text with `strcpy` is taken to fit the destination. -/
def ei_frame_configure (has_parent : Bool) (fresh : ei_impl_placer_params_t)
    (widget : ei_widget_t) (args : frame_configure_args) : Option ei_widget_t :=
  match widget with
  | .null => none
  | .node _ _ (.toplevel _) _ _ => none
  | .node a w (.frame frame) h s =>
    let height1 := match args.requested_size with
      | some rs => rs.height
      | none => w.requested_size.height
    let w1 := { w with requested_size := { width := w.requested_size.width, height := height1 } }
    let width2 := match args.requested_size with
      | some rs => rs.width
      | none => w1.requested_size.width
    let w2 := { w1 with requested_size := { width := width2, height := w1.requested_size.height } }
    let height3 := match args.requested_size with
      | some rs => rs.height
      | none => w2.requested_size.height
    let w3 := { w2 with screen_location := w2.screen_location.set_height height3 }
    let width4 := match args.requested_size with
      | some rs => rs.width
      | none => w3.requested_size.width
    let w4 := { w3 with screen_location := w3.screen_location.set_width width4 }
    let w5 := { w4 with content_rect := .own }
    let w6 :=
      if has_parent = true then
        let params := match w5.placer_params with
          | some p => p
          | none => fresh
        let params1 := { params with height := match args.requested_size with
          | some rs => rs.height
          | none => w5.requested_size.height }
        let params2 := { params1 with width := match args.requested_size with
          | some rs => rs.width
          | none => w5.requested_size.width }
        { w5 with placer_params := some params2 }
      else w5
    let frame1 : ei_impl_frame_t :=
      { color := match args.color with
          | some c => c
          | none => frame.color,
        border_width := match args.border_width with
          | some b => b
          | none => frame.border_width,
        relief := match args.relief with
          | some r => r
          | none => frame.relief,
        text := match args.text with
          | some t => some t
          | none => frame.text,
        text_font := match args.text_font with
          | some f => f
          | none => frame.text_font,
        text_color := match args.text_color with
          | some c => c
          | none => frame.text_color,
        text_anchor := match args.text_anchor with
          | some c => c
          | none => frame.text_anchor,
        img := match args.img with
          | some i => i
          | none => frame.img,
        img_rect := match args.img_rect with
          | some r => r
          | none => frame.img_rect,
        img_anchor := match args.img_anchor with
          | some c => c
          | none => frame.img_anchor }
    some (.node a w6 (.frame frame1) h s)

/-- The placer parameters of the widget a pointer designates. -/
def ei_widget_t.placer_params : ei_widget_t → Option ei_impl_placer_params_t
  | .null => none
  | .node _ w _ _ _ => w.placer_params

/-! ## More sample data -/

/-- A toplevel at address 8 with no placer parameters and no child. -/
def sample_childless_toplevel : ei_widget_t :=
  .node 8
    { sample_record 8 { top_left := { x := 20, y := 20 }, size := { width := 100, height := 80 } }
      with placer_params := none }
    (.toplevel sample_toplevel_fields) .null .null

/-- The sample toplevel with a null anchor slot `user_data`. -/
def sample_toplevel_no_anchor : ei_widget_t :=
  .node 1
    { sample_record 1 { top_left := { x := 10, y := 10 }, size := { width := 200, height := 100 } }
      with user_data := none }
    (.toplevel sample_toplevel_fields) sample_grip .null

/-- The call `ei_frame_configure (widget, NULL, ..., NULL)`. -/
def configure_nothing : frame_configure_args :=
  { requested_size := none, color := none, border_width := none, relief := none, text := none,
    text_font := none, text_color := none, text_anchor := none, img := none, img_rect := none,
    img_anchor := none }

/-- A block of memory with arbitrary content, read as placer parameters. -/
def sample_uninitialised_params : ei_impl_placer_params_t :=
  { x := 77, y := -3, width := 12345, height := -9, rel_x := 1065353216, rel_y := 5,
    rel_width := some 9, rel_height := none, anchor := .ei_anc_south }

/-- What the channels whose index is `i` add to the pixel value in the
iteration `i` of the loop of `ei_impl_map_rgba`. -/
def channel_contribution (ir ig ib ia : Int) (color : ei_color_t) (i : Nat) : Nat :=
  (if ir = (i : Int) then color.red * 2 ^ (8 * i) else 0)
    + (if ig = (i : Int) then color.green * 2 ^ (8 * i) else 0)
    + (if ib = (i : Int) then color.blue * 2 ^ (8 * i) else 0)
    + (if ia = (i : Int) then color.alpha * 2 ^ (8 * i) else 0)

/-- The byte a channel of index `idx` lands in: the channel shifted by
`8 * idx` bits for an index in 0..3, nothing otherwise. -/
def channel_byte (idx : Int) (channel : Nat) : Nat :=
  if 0 ≤ idx ∧ idx ≤ 3 then channel * 2 ^ (8 * idx.toNat) else 0

/-! ## The range of `int` -/

/-- The button-down branch of `ei_toplevel_handlefunc`: the widget becomes the
active one exactly when the button is the left one and the point lies in the
capture region; the widget itself is untouched. -/
theorem handle_buttondown (tb : text_backend) (pc : Option ei_rect_t) (g : globals)
    (a : Nat) (w : ei_impl_widget_t) (c : widget_class) (h s : ei_widget_t) (ev : ei_event_t)
    (hty : ev.type = .ei_ev_mouse_buttondown) :
    ei_toplevel_handlefunc tb pc g (.node a w c h s) ev =
      some (if ev.button = .ei_mouse_button_left ∧
              ei_in_rect ev.mouse_where (toplevel_capture_rect w) = true
            then { g with active := some a } else g, .node a w c h s, handler_locks) := by
  unfold ei_toplevel_handlefunc
  simp only [hty, toplevel_capture_rect, handler_locks]
  split <;> rfl

/-- The button-up branch of `ei_toplevel_handlefunc` clears the active widget
and nothing else. -/
theorem handle_buttonup (tb : text_backend) (pc : Option ei_rect_t) (g : globals)
    (a : Nat) (w : ei_impl_widget_t) (c : widget_class) (h s : ei_widget_t) (ev : ei_event_t)
    (hty : ev.type = .ei_ev_mouse_buttonup) :
    ei_toplevel_handlefunc tb pc g (.node a w c h s) ev =
      some ({ g with active := none }, .node a w c h s, handler_locks) := by
  unfold ei_toplevel_handlefunc
  simp only [hty, handler_locks]

/-- A move event delivered to the active widget while the toggle is clear sets
the toggle and leaves the widget as it was. -/
theorem handle_move_prime (tb : text_backend) (pc : Option ei_rect_t) (g : globals)
    (a : Nat) (w : ei_impl_widget_t) (c : widget_class) (h s : ei_widget_t) (ev : ei_event_t)
    (anchor_point : ei_point_t)
    (hty : ev.type = .ei_ev_mouse_move) (hact : g.active = some a)
    (hmov : g.moving = false) (hud : w.user_data = some anchor_point) :
    ei_toplevel_handlefunc tb pc g (.node a w c h s) ev =
      some ({ g with moving := true }, .node a w c h s, handler_locks) := by
  unfold ei_toplevel_handlefunc
  simp [hty, hact, hmov, hud, handler_locks]

/-- A move event delivered to the active widget while the toggle is set
forgets the placement, moves the widget by the pointer position minus the
anchor, redraws it and clears the toggle. -/
theorem handle_move_apply (tb : text_backend) (pc : Option ei_rect_t) (g : globals)
    (a : Nat) (w : ei_impl_widget_t) (c : widget_class) (h s : ei_widget_t) (ev : ei_event_t)
    (anchor_point : ei_point_t)
    (hty : ev.type = .ei_ev_mouse_move) (hact : g.active = some a)
    (hmov : g.moving = true) (hud : w.user_data = some anchor_point) :
    ei_toplevel_handlefunc tb pc g (.node a w c h s) ev =
      (wclass_drawfunc tb pc
        (ei_toplevel_moving_update (ei_placer_forget (.node a w c h s))
          (ev.mouse_where.x - anchor_point.x) (ev.mouse_where.y - anchor_point.y)) none).map
        (fun r => ({ g with moving := false }, r.1,
          handler_locks ++ [ .hw_surface_unlock .real, .hw_surface_unlock .pick,
            .hw_surface_update_rects .real, .hw_surface_lock .real, .hw_surface_lock .pick ]
            ++ r.2)) := by
  unfold ei_toplevel_handlefunc
  simp only [hty, hact, hmov, hud, handler_locks]
  cases hd : wclass_drawfunc tb pc
        (ei_toplevel_moving_update (ei_placer_forget (.node a w c h s))
          (ev.mouse_where.x - anchor_point.x) (ev.mouse_where.y - anchor_point.y)) none with
  | none => simp
  | some r => simp

/-- The geometry update of a move leaves the anchor slot alone. -/
theorem moving_update_fields_user_data (w : ei_impl_widget_t) (dx dy : Int) :
    (moving_update_fields w dx dy).user_data = w.user_data := by
  cases hc : w.content_rect <;>
    simp [moving_update_fields, ei_impl_widget_t.store_content, ei_impl_widget_t.content, hc]

/-- The update step of a drag always completes on a toplevel, and keeps the
address, the class, the sibling link and the anchor slot of the widget. -/
theorem move_apply_shape (tb : text_backend) (pc : Option ei_rect_t)
    (a : Nat) (w : ei_impl_widget_t) (t : ei_impl_toplevel_t) (h s : ei_widget_t) (dx dy : Int) :
    ∃ w1 h1 ops,
      wclass_drawfunc tb pc
        (ei_toplevel_moving_update (ei_placer_forget (.node a w (.toplevel t) h s)) dx dy) none
        = some (.node a w1 (.toplevel t) h1 s, ops) ∧ w1.user_data = w.user_data := by
  cases pc with
  | none =>
    refine ⟨_, _, _, rfl, ?_⟩
    exact moving_update_fields_user_data _ dx dy
  | some pr =>
    refine ⟨_, _, _, rfl, ?_⟩
    exact moving_update_fields_user_data _ dx dy

/-! ## C1: which move events of a drag change the geometry -/

/-- C1, counterexample: on the sample toplevel, started from the initial
state, after a left-button-down at (15, 15) in the capture region the move
event at (30, 40) leaves the screen location as it was, the move event at
(50, 60) changes it, and the move event at (70, 80) leaves it as the second
left it: the geometry changes after the 2nd move only, not after the 1st and
the 3rd. -/
theorem c1_drag_first_and_third_counterexample :
    toplevel_location_after sample_backend sample_parent_content globals_init sample_toplevel
        [ev_down 15 15]
      = some { top_left := { x := 10, y := 10 }, size := { width := 200, height := 100 } } ∧
    toplevel_location_after sample_backend sample_parent_content globals_init sample_toplevel
        [ev_down 15 15, ev_move 30 40]
      = some { top_left := { x := 10, y := 10 }, size := { width := 200, height := 100 } } ∧
    toplevel_location_after sample_backend sample_parent_content globals_init sample_toplevel
        [ev_down 15 15, ev_move 30 40, ev_move 50 60]
      = some { top_left := { x := 110, y := 130 }, size := { width := 200, height := 100 } } ∧
    toplevel_location_after sample_backend sample_parent_content globals_init sample_toplevel
        [ev_down 15 15, ev_move 30 40, ev_move 50 60, ev_move 70 80]
      = some { top_left := { x := 110, y := 130 }, size := { width := 200, height := 100 } } := by
  decide

/-- C1, amended: from a state whose toggle `moving` is false, after a
left-button-down in the capture region of a toplevel whose anchor slot is
present, the 1st following move event leaves the widget as it was and sets
the toggle, the 2nd applies the update (forget the placement, move by the
pointer position minus the anchor, redraw) and clears the toggle, and the
3rd leaves the widget as the 2nd left it. -/
theorem c1_drag_applies_on_second_move (tb : text_backend) (pc : Option ei_rect_t)
    (g : globals) (a : Nat) (w : ei_impl_widget_t) (t : ei_impl_toplevel_t)
    (h s : ei_widget_t) (down m1 m2 m3 : ei_event_t) (anchor_point : ei_point_t)
    (hmoving : g.moving = false) (hud : w.user_data = some anchor_point)
    (hdown : down.type = .ei_ev_mouse_buttondown)
    (hleft : down.button = .ei_mouse_button_left)
    (hin : ei_in_rect down.mouse_where (toplevel_capture_rect w) = true)
    (h1 : m1.type = .ei_ev_mouse_move) (h2 : m2.type = .ei_ev_mouse_move)
    (h3 : m3.type = .ei_ev_mouse_move) :
    toplevel_run tb pc g (.node a w (.toplevel t) h s) [down, m1]
      = some ({ g with active := some a, moving := true }, .node a w (.toplevel t) h s) ∧
    ∃ widget2 ops,
      wclass_drawfunc tb pc
          (ei_toplevel_moving_update (ei_placer_forget (.node a w (.toplevel t) h s))
            (m2.mouse_where.x - anchor_point.x) (m2.mouse_where.y - anchor_point.y)) none
        = some (widget2, ops) ∧
      toplevel_run tb pc g (.node a w (.toplevel t) h s) [down, m1, m2]
        = some ({ g with active := some a, moving := false }, widget2) ∧
      toplevel_run tb pc g (.node a w (.toplevel t) h s) [down, m1, m2, m3]
        = some ({ g with active := some a, moving := true }, widget2) := by
  have e0 : ei_toplevel_handlefunc tb pc g (.node a w (.toplevel t) h s) down
      = some ({ g with active := some a }, .node a w (.toplevel t) h s, handler_locks) := by
    rw [handle_buttondown tb pc g a w _ h s down hdown]
    simp [hleft, hin]
  have e1 : ei_toplevel_handlefunc tb pc { g with active := some a }
      (.node a w (.toplevel t) h s) m1
      = some ({ g with active := some a, moving := true }, .node a w (.toplevel t) h s,
          handler_locks) :=
    handle_move_prime tb pc _ a w _ h s m1 anchor_point h1 rfl hmoving hud
  obtain ⟨w1, hh1, ops, hdraw, hud1⟩ := move_apply_shape tb pc a w t h s
    (m2.mouse_where.x - anchor_point.x) (m2.mouse_where.y - anchor_point.y)
  have e2 : ei_toplevel_handlefunc tb pc { g with active := some a, moving := true }
      (.node a w (.toplevel t) h s) m2
      = some ({ g with active := some a, moving := false }, .node a w1 (.toplevel t) hh1 s,
          handler_locks ++ [ .hw_surface_unlock .real, .hw_surface_unlock .pick,
            .hw_surface_update_rects .real, .hw_surface_lock .real, .hw_surface_lock .pick ]
            ++ ops) := by
    rw [handle_move_apply tb pc _ a w _ h s m2 anchor_point h2 rfl rfl hud, hdraw]
    rfl
  have e3 : ei_toplevel_handlefunc tb pc { g with active := some a, moving := false }
      (.node a w1 (.toplevel t) hh1 s) m3
      = some ({ g with active := some a, moving := true }, .node a w1 (.toplevel t) hh1 s,
          handler_locks) :=
    handle_move_prime tb pc _ a w1 _ hh1 s m3 anchor_point h3 rfl rfl (hud1.trans hud)
  refine ⟨?_, _, ops, hdraw, ?_, ?_⟩
  · simp [toplevel_run, e0, e1]
  · simp [toplevel_run, e0, e1, e2]
  · simp [toplevel_run, e0, e1, e2, e3]

/-- C1, amended, at the sample toplevel with the events of the
counterexample. -/
theorem c1_drag_applies_on_second_move_witness :
    toplevel_run sample_backend sample_parent_content globals_init sample_toplevel
        [ev_down 15 15, ev_move 30 40]
      = some ({ globals_init with active := some 1, moving := true }, sample_toplevel) ∧
    ∃ widget2 ops,
      wclass_drawfunc sample_backend sample_parent_content
          (ei_toplevel_moving_update (ei_placer_forget sample_toplevel) (50 - 0) (60 - 0)) none
        = some (widget2, ops) ∧
      toplevel_run sample_backend sample_parent_content globals_init sample_toplevel
          [ev_down 15 15, ev_move 30 40, ev_move 50 60]
        = some ({ globals_init with active := some 1, moving := false }, widget2) ∧
      toplevel_run sample_backend sample_parent_content globals_init sample_toplevel
          [ev_down 15 15, ev_move 30 40, ev_move 50 60, ev_move 70 80]
        = some ({ globals_init with active := some 1, moving := true }, widget2) :=
  c1_drag_applies_on_second_move sample_backend sample_parent_content globals_init 1
    (sample_record 1 { top_left := { x := 10, y := 10 }, size := { width := 200, height := 100 } })
    sample_toplevel_fields sample_grip .null (ev_down 15 15) (ev_move 30 40) (ev_move 50 60)
    (ev_move 70 80) { x := 0, y := 0 } rfl rfl rfl rfl (by decide) rfl rfl rfl

/-! ## C2: the toggle outlives a gesture -/

/-- C2, at the failing input: on the sample toplevel, started from the
initial state, a first gesture (button-down, one move, button-up) leaves the
toggle `moving` set; after the button-down of the second gesture the widget
is still at (10, 10), and the first move event of that gesture, at (50, 60),
applies the update instead of priming. -/
theorem c2_second_gesture_first_move_applies :
    toplevel_run sample_backend sample_parent_content globals_init sample_toplevel
        [ev_down 15 15, ev_move 30 40, ev_up 30 40, ev_down 15 15]
      = some ({ active := some 1, moving := true, resize := false }, sample_toplevel) ∧
    toplevel_location_after sample_backend sample_parent_content globals_init sample_toplevel
        [ev_down 15 15, ev_move 30 40, ev_up 30 40, ev_down 15 15, ev_move 50 60]
      = some { top_left := { x := 110, y := 130 }, size := { width := 200, height := 100 } } := by
  decide

/-! ## C3: the displacement applied by `ei_toplevel_moving_update` -/

/-- When `content_rect` designates the widget's own `screen_location`, the
two pairs of assignments of `ei_toplevel_moving_update` hit the same
rectangle: the top left corner moves by twice the delta. -/
theorem moving_update_fields_own (w : ei_impl_widget_t) (dx dy : Int)
    (hown : w.content_rect = .own) :
    (moving_update_fields w dx dy).screen_location =
      { top_left := { x := w.screen_location.top_left.x + dx + dx,
                      y := w.screen_location.top_left.y + dy + dy },
        size := w.screen_location.size } := by
  simp [moving_update_fields, ei_impl_widget_t.store_content, ei_impl_widget_t.content, hown,
    ei_rect_t.set_x, ei_rect_t.set_y]

/-- C3, at the failing input: the sample toplevel, whose `content_rect`
designates its own `screen_location`, is at (10, 10) and its grip at
(204, 104); after `ei_toplevel_moving_update` with delta (5, 6) the toplevel
is at (20, 22), not at (15, 16), and the grip at (214, 116); the sizes are
unchanged. -/
theorem c3_moving_update_doubles_delta :
    (ei_toplevel_moving_update sample_toplevel 5 6).screen_location
      = some { top_left := { x := 20, y := 22 }, size := { width := 200, height := 100 } } ∧
    (match ei_toplevel_moving_update sample_toplevel 5 6 with
      | .node _ _ _ child _ => child.screen_location
      | .null => none)
      = some { top_left := { x := 214, y := 116 }, size := { width := 6, height := 6 } } := by
  decide

/-! ## C4: a resize constrained to the horizontal axis -/

/-- Adding `0.2 * 0` leaves an `int` as it was. -/
theorem add_scaled_0_2_zero (a : Int) : add_scaled_0_2 a 0 = a := by
  simp [add_scaled_0_2]

/-- A resize update with `dy = 0` leaves the height-relevant fields of the
widget it is applied to as they were. -/
theorem resizing_update_fields_vertical (cls : widget_class) (w : ei_impl_widget_t) (dx : Int) :
    vertical_fields (resizing_update_fields cls w dx 0) = vertical_fields w := by
  cases cls <;> cases hc : w.content_rect <;>
    simp [resizing_update_fields, vertical_fields, ei_impl_widget_t.store_content,
      ei_impl_widget_t.content, hc, ei_rect_t.set_x, ei_rect_t.set_y, ei_rect_t.set_width,
      ei_rect_t.set_height, add_scaled_0_2_zero]

/-- A resize update with `dy = 0` leaves the height-relevant geometry of a
chain of siblings and of their descendants as it was. -/
theorem resizing_update_children_vertical (widget : ei_widget_t) (dx : Int) :
    chain_vertical_geometry (resizing_update_children widget dx 0)
      = chain_vertical_geometry widget := by
  induction widget with
  | null => rfl
  | node a w c h s ih_h ih_s =>
    simp [resizing_update_children, chain_vertical_geometry, resizing_update_fields_vertical,
      ih_h, ih_s]

/-- A resize update with `dy = 0` leaves the height-relevant geometry of the
widget and of its subtree as it was. -/
theorem resizing_update_vertical (widget : ei_widget_t) (dx : Int) :
    vertical_geometry (ei_toplevel_resizing_update widget dx 0) = vertical_geometry widget := by
  cases widget with
  | null => rfl
  | node a w c h s =>
    simp [ei_toplevel_resizing_update, vertical_geometry, resizing_update_fields_vertical,
      resizing_update_children_vertical]

/-- Forgetting the placement does not touch the geometry. -/
theorem placer_forget_vertical (widget : ei_widget_t) :
    vertical_geometry (ei_placer_forget widget) = vertical_geometry widget := by
  cases widget with
  | null => rfl
  | node a w c h s => rfl

/-- The update step of a resize always completes on a toplevel. -/
theorem resize_apply_shape (tb : text_backend) (gc : Option ei_rect_t)
    (a : Nat) (w : ei_impl_widget_t) (t : ei_impl_toplevel_t) (h s : ei_widget_t) (dx dy : Int) :
    ∃ parent3 ops,
      wclass_drawfunc tb gc
        (ei_toplevel_resizing_update (ei_placer_forget (.node a w (.toplevel t) h s)) dx dy) none
        = some (parent3, ops) := by
  cases gc with
  | none => exact ⟨_, _, rfl⟩
  | some pr => exact ⟨_, _, rfl⟩

/-- C4: when the grip of a toplevel whose `resizable` is `ei_axis_x` is the
active widget, the toggle `resize` is set and the anchor slot is present, a
move event makes `frame_handlefunc` run the resize update on the toplevel
with the horizontal pointer delta and `dy = 0`, whatever the vertical
pointer delta, and then redraw; and the update with `dy = 0` leaves, for the
toplevel and every widget of its subtree, the height and ordinate of
`screen_location` and of `*content_rect` as they were. -/
theorem c4_resize_axis_x_keeps_height (tb : text_backend) (gc : Option ei_rect_t) (g : globals)
    (a : Nat) (w : ei_impl_widget_t) (t : ei_impl_toplevel_t) (s : ei_widget_t)
    (ga : Nat) (gw : ei_impl_widget_t) (gcls : widget_class) (gh gs : ei_widget_t)
    (ev : ei_event_t) (anchor_point : ei_point_t)
    (haxis : t.resizable = .ei_axis_x) (hty : ev.type = .ei_ev_mouse_move)
    (hact : g.active = some ga) (hres : g.resize = true)
    (hmp : gw.my_param = some anchor_point) :
    ∃ updated parent3 ops,
      updated = ei_toplevel_resizing_update
          (ei_placer_forget (.node a w (.toplevel t) (.node ga gw gcls gh gs) s))
          (ev.mouse_where.x - anchor_point.x) 0 ∧
      wclass_drawfunc tb gc updated none = some (parent3, ops) ∧
      frame_handlefunc ei_toplevel_resizing_update tb gc g
          (.node a w (.toplevel t) (.node ga gw gcls gh gs) s) ga ev
        = some ({ g with resize := false }, parent3,
            handler_locks ++ ops ++ handler_unlocks) ∧
      vertical_geometry updated
        = vertical_geometry (.node a w (.toplevel t) (.node ga gw gcls gh gs) s) := by
  obtain ⟨parent3, ops, hdraw⟩ := resize_apply_shape tb gc a w t (.node ga gw gcls gh gs) s
    (ev.mouse_where.x - anchor_point.x) 0
  refine ⟨_, parent3, ops, rfl, hdraw, ?_, ?_⟩
  · unfold frame_handlefunc
    simp only [hty, hact, hres, hmp, haxis, resize_clamp, if_true, hdraw]
    simp
  · rw [resizing_update_vertical, placer_forget_vertical]

/-- C4 at the sample toplevel constrained to the horizontal axis, for the
diagonal pointer delta (10, 20). -/
theorem c4_resize_axis_x_keeps_height_witness :
    ∃ updated parent3 ops,
      updated = ei_toplevel_resizing_update (ei_placer_forget sample_toplevel_x) (10 - 0) 0 ∧
      wclass_drawfunc sample_backend sample_parent_content updated none = some (parent3, ops) ∧
      frame_handlefunc ei_toplevel_resizing_update sample_backend sample_parent_content
          { active := some 2, moving := false, resize := true } sample_toplevel_x 2
          (ev_move 10 20)
        = some ({ active := some 2, moving := false, resize := false }, parent3,
            handler_locks ++ ops ++ handler_unlocks) ∧
      vertical_geometry updated = vertical_geometry sample_toplevel_x :=
  c4_resize_axis_x_keeps_height sample_backend sample_parent_content
    { active := some 2, moving := false, resize := true } 1
    (sample_record 1 { top_left := { x := 10, y := 10 }, size := { width := 200, height := 100 } })
    { sample_toplevel_fields with resizable := .ei_axis_x } .null 2
    (sample_record 2 { top_left := { x := 204, y := 104 }, size := { width := 6, height := 6 } })
    (.frame sample_frame_fields) .null .null (ev_move 10 20) { x := 0, y := 0 }
    rfl rfl rfl rfl rfl

/-! ## C5: a button-down while another widget is active -/

/-- C5, counterexample: with the widget of address 7 active, a
left-button-down at (15, 15) delivered to the sample toplevel (address 1)
makes the toplevel the active widget, and a left-button-down at (205, 105)
delivered to its grip (address 2) makes the grip the active widget. -/
theorem c5_capture_replaces_active_counterexample :
    (ei_toplevel_handlefunc sample_backend sample_parent_content
        { active := some 7, moving := false, resize := false } sample_toplevel
        (ev_down 15 15)).map (fun r => r.1.active) = some (some 1) ∧
    (frame_handlefunc ei_toplevel_resizing_update sample_backend sample_parent_content
        { active := some 7, moving := false, resize := false } sample_toplevel 2
        (ev_down 205 105)).map (fun r => r.1.active) = some (some 2) := by
  decide

/-- C5, amended: a left-button-down inside the capture region of a widget is
always honoured, whatever widget is active at that time: after
`ei_toplevel_handlefunc` the toplevel is the active widget, and after
`frame_handlefunc` on the grip of a toplevel the grip is. -/
theorem c5_buttondown_always_captures
    (resize_update : ei_widget_t → Int → Int → ei_widget_t) (tb : text_backend)
    (pc : Option ei_rect_t) (g : globals)
    (a : Nat) (w : ei_impl_widget_t) (t : ei_impl_toplevel_t) (s : ei_widget_t)
    (ga : Nat) (gw : ei_impl_widget_t) (gcls : widget_class) (gh gs : ei_widget_t)
    (ev_t ev_g : ei_event_t)
    (hty_t : ev_t.type = .ei_ev_mouse_buttondown)
    (hleft_t : ev_t.button = .ei_mouse_button_left)
    (hin_t : ei_in_rect ev_t.mouse_where (toplevel_capture_rect w) = true)
    (hty_g : ev_g.type = .ei_ev_mouse_buttondown)
    (hleft_g : ev_g.button = .ei_mouse_button_left)
    (hin_g : ei_in_rect ev_g.mouse_where gw.screen_location = true) :
    ei_toplevel_handlefunc tb pc g (.node a w (.toplevel t) (.node ga gw gcls gh gs) s) ev_t
      = some ({ g with active := some a },
          .node a w (.toplevel t) (.node ga gw gcls gh gs) s, handler_locks) ∧
    frame_handlefunc resize_update tb pc g
        (.node a w (.toplevel t) (.node ga gw gcls gh gs) s) ga ev_g
      = some ({ g with active := some ga },
          .node a w (.toplevel t) (.node ga gw gcls gh gs) s,
          handler_locks ++ handler_unlocks) := by
  constructor
  · rw [handle_buttondown tb pc g a w _ _ s ev_t hty_t]
    simp [hleft_t, hin_t]
  · unfold frame_handlefunc
    simp [hty_g, hleft_g, hin_g]

/-- C5, amended, at the sample toplevel with the widget of address 7
active. -/
theorem c5_buttondown_always_captures_witness :
    ei_toplevel_handlefunc sample_backend sample_parent_content
        { active := some 7, moving := false, resize := false } sample_toplevel (ev_down 15 15)
      = some ({ active := some 1, moving := false, resize := false }, sample_toplevel,
          handler_locks) ∧
    frame_handlefunc ei_toplevel_resizing_update sample_backend sample_parent_content
        { active := some 7, moving := false, resize := false } sample_toplevel 2
        (ev_down 205 105)
      = some ({ active := some 2, moving := false, resize := false }, sample_toplevel,
          handler_locks ++ handler_unlocks) :=
  c5_buttondown_always_captures ei_toplevel_resizing_update sample_backend
    sample_parent_content { active := some 7, moving := false, resize := false } 1
    (sample_record 1 { top_left := { x := 10, y := 10 }, size := { width := 200, height := 100 } })
    sample_toplevel_fields .null 2
    (sample_record 2 { top_left := { x := 204, y := 104 }, size := { width := 6, height := 6 } })
    (.frame sample_frame_fields) .null .null (ev_down 15 15) (ev_down 205 105)
    rfl rfl (by decide) rfl rfl (by decide)

/-! ## C6: the anchor of a gesture -/

/-- On a button-down event `frame_handlefunc` returns the parent, and with
it the called widget, as it received it. -/
theorem frame_handle_buttondown_unchanged
    (resize_update : ei_widget_t → Int → Int → ei_widget_t) (tb : text_backend)
    (gc : Option ei_rect_t) (g : globals) (parent : ei_widget_t) (widget : Nat)
    (ev : ei_event_t) (hty : ev.type = .ei_ev_mouse_buttondown) :
    ∃ g1 ops, frame_handlefunc resize_update tb gc g parent widget ev = some (g1, parent, ops) := by
  unfold frame_handlefunc
  split
  · exact ⟨_, _, rfl⟩
  · exact ⟨_, _, rfl⟩
  · exact ⟨_, _, rfl⟩
  · split
    · simp only [hty]
      split
      · exact ⟨_, _, rfl⟩
      · exact ⟨_, _, rfl⟩
    · exact ⟨_, _, rfl⟩

/-- C6, counterexample: the anchor slots of the sample toplevel and of its
grip hold the point (0, 0); after a left-button-down at (15, 15) in the
capture region of the toplevel its `user_data` still holds (0, 0), and after
a left-button-down at (205, 105) on the grip its `my_param` still holds
(0, 0): the handlers do not record the pointer position. -/
theorem c6_anchor_not_recorded_counterexample :
    (ei_toplevel_handlefunc sample_backend sample_parent_content globals_init sample_toplevel
        (ev_down 15 15)).map (fun r => (r.1.active, r.2.1.user_data))
      = some (some 1, some { x := 0, y := 0 }) ∧
    (frame_handlefunc ei_toplevel_resizing_update sample_backend sample_parent_content
        globals_init sample_toplevel 2
        (ev_down 205 105)).map (fun r => (r.1.active, r.2.1.head_my_param))
      = some (some 2, some { x := 0, y := 0 }) := by
  decide

/-- C6, amended: a button-down event leaves the widget, and so its anchor
slot, as it was, in `ei_toplevel_handlefunc` and in `frame_handlefunc`; the
delta of an applied move event at Q is computed from Q minus the point the
slot holds when the move is handled: `ei_toplevel_handlefunc` moves the
toplevel by Q - `user_data`, and `frame_handlefunc` resizes it by
Q - `my_param` with the component of every axis the toplevel is not
resizable along set to zero. -/
theorem c6_anchor_is_read_not_written
    (tb : text_backend) (pc : Option ei_rect_t) (g : globals)
    (a : Nat) (w : ei_impl_widget_t) (t : ei_impl_toplevel_t) (s : ei_widget_t)
    (ga : Nat) (gw : ei_impl_widget_t) (gcls : widget_class) (gh gs : ei_widget_t)
    (down move_t move_g : ei_event_t) (anchor_t anchor_g : ei_point_t)
    (hdown : down.type = .ei_ev_mouse_buttondown)
    (hmt : move_t.type = .ei_ev_mouse_move) (hmg : move_g.type = .ei_ev_mouse_move)
    (hud : w.user_data = some anchor_t) (hmp : gw.my_param = some anchor_g) :
    (∃ g1 ops, ei_toplevel_handlefunc tb pc g
        (.node a w (.toplevel t) (.node ga gw gcls gh gs) s) down
      = some (g1, .node a w (.toplevel t) (.node ga gw gcls gh gs) s, ops)) ∧
    (∃ g1 ops, frame_handlefunc ei_toplevel_resizing_update tb pc g
        (.node a w (.toplevel t) (.node ga gw gcls gh gs) s) ga down
      = some (g1, .node a w (.toplevel t) (.node ga gw gcls gh gs) s, ops)) ∧
    (∃ widget3 ops,
      wclass_drawfunc tb pc
          (ei_toplevel_moving_update
            (ei_placer_forget (.node a w (.toplevel t) (.node ga gw gcls gh gs) s))
            (move_t.mouse_where.x - anchor_t.x) (move_t.mouse_where.y - anchor_t.y)) none
        = some (widget3, ops) ∧
      ei_toplevel_handlefunc tb pc { g with active := some a, moving := true }
          (.node a w (.toplevel t) (.node ga gw gcls gh gs) s) move_t
        = some ({ g with active := some a, moving := false }, widget3,
            handler_locks ++ [ .hw_surface_unlock .real, .hw_surface_unlock .pick,
              .hw_surface_update_rects .real, .hw_surface_lock .real, .hw_surface_lock .pick ]
              ++ ops)) ∧
    (∃ parent3 ops,
      wclass_drawfunc tb pc
          (ei_toplevel_resizing_update
            (ei_placer_forget (.node a w (.toplevel t) (.node ga gw gcls gh gs) s))
            (resize_clamp t.resizable (move_g.mouse_where.x - anchor_g.x)
              (move_g.mouse_where.y - anchor_g.y)).1
            (resize_clamp t.resizable (move_g.mouse_where.x - anchor_g.x)
              (move_g.mouse_where.y - anchor_g.y)).2) none
        = some (parent3, ops) ∧
      frame_handlefunc ei_toplevel_resizing_update tb pc
          { g with active := some ga, resize := true }
          (.node a w (.toplevel t) (.node ga gw gcls gh gs) s) ga move_g
        = some ({ g with active := some ga, resize := false }, parent3,
            handler_locks ++ ops ++ handler_unlocks)) ∧
    resize_clamp t.resizable (move_g.mouse_where.x - anchor_g.x)
        (move_g.mouse_where.y - anchor_g.y)
      = (if t.resizable = .ei_axis_x ∨ t.resizable = .ei_axis_both
          then move_g.mouse_where.x - anchor_g.x else 0,
         if t.resizable = .ei_axis_y ∨ t.resizable = .ei_axis_both
          then move_g.mouse_where.y - anchor_g.y else 0) := by
  refine ⟨?_, ?_, ?_, ?_, ?_⟩
  · exact ⟨_, _, handle_buttondown tb pc g a w _ _ s down hdown⟩
  · exact frame_handle_buttondown_unchanged _ tb pc g _ ga down hdown
  · obtain ⟨w1, h1, ops, hdraw, _⟩ := move_apply_shape tb pc a w t (.node ga gw gcls gh gs) s
      (move_t.mouse_where.x - anchor_t.x) (move_t.mouse_where.y - anchor_t.y)
    refine ⟨_, ops, hdraw, ?_⟩
    rw [handle_move_apply tb pc _ a w _ _ s move_t anchor_t hmt rfl rfl hud, hdraw]
    rfl
  · obtain ⟨parent3, ops, hdraw⟩ := resize_apply_shape tb pc a w t (.node ga gw gcls gh gs) s
      (resize_clamp t.resizable (move_g.mouse_where.x - anchor_g.x)
        (move_g.mouse_where.y - anchor_g.y)).1
      (resize_clamp t.resizable (move_g.mouse_where.x - anchor_g.x)
        (move_g.mouse_where.y - anchor_g.y)).2
    refine ⟨parent3, ops, hdraw, ?_⟩
    unfold frame_handlefunc
    simp only [hmg, hmp, if_true, hdraw]
    simp
  · cases t.resizable <;> simp [resize_clamp]

/-- C6, amended, at the sample toplevel resizable along the horizontal axis
only: a button-down at (15, 15), then a move at (50, 60) handled by each of
the two handlers; the toplevel is moved by (50, 60) and resized by
(50, 0). -/
theorem c6_anchor_is_read_not_written_witness :
    (∃ g1 ops, ei_toplevel_handlefunc sample_backend sample_parent_content globals_init
        sample_toplevel_x (ev_down 15 15)
      = some (g1, sample_toplevel_x, ops)) ∧
    (∃ g1 ops, frame_handlefunc ei_toplevel_resizing_update sample_backend
        sample_parent_content globals_init sample_toplevel_x 2 (ev_down 15 15)
      = some (g1, sample_toplevel_x, ops)) ∧
    (∃ widget3 ops,
      wclass_drawfunc sample_backend sample_parent_content
          (ei_toplevel_moving_update (ei_placer_forget sample_toplevel_x) (50 - 0) (60 - 0)) none
        = some (widget3, ops) ∧
      ei_toplevel_handlefunc sample_backend sample_parent_content
          { globals_init with active := some 1, moving := true } sample_toplevel_x
          (ev_move 50 60)
        = some ({ globals_init with active := some 1, moving := false }, widget3,
            handler_locks ++ [ .hw_surface_unlock .real, .hw_surface_unlock .pick,
              .hw_surface_update_rects .real, .hw_surface_lock .real, .hw_surface_lock .pick ]
              ++ ops)) ∧
    (∃ parent3 ops,
      wclass_drawfunc sample_backend sample_parent_content
          (ei_toplevel_resizing_update (ei_placer_forget sample_toplevel_x)
            (resize_clamp .ei_axis_x (50 - 0) (60 - 0)).1
            (resize_clamp .ei_axis_x (50 - 0) (60 - 0)).2) none
        = some (parent3, ops) ∧
      frame_handlefunc ei_toplevel_resizing_update sample_backend sample_parent_content
          { globals_init with active := some 2, resize := true } sample_toplevel_x 2
          (ev_move 50 60)
        = some ({ globals_init with active := some 2, resize := false }, parent3,
            handler_locks ++ ops ++ handler_unlocks)) ∧
    resize_clamp .ei_axis_x (50 - 0) (60 - 0)
      = (if ei_axis_set_t.ei_axis_x = .ei_axis_x ∨ ei_axis_set_t.ei_axis_x = .ei_axis_both
          then 50 - 0 else 0,
         if ei_axis_set_t.ei_axis_x = .ei_axis_y ∨ ei_axis_set_t.ei_axis_x = .ei_axis_both
          then 60 - 0 else 0) :=
  c6_anchor_is_read_not_written sample_backend sample_parent_content globals_init 1
    (sample_record 1 { top_left := { x := 10, y := 10 }, size := { width := 200, height := 100 } })
    { sample_toplevel_fields with resizable := .ei_axis_x } .null 2
    (sample_record 2 { top_left := { x := 204, y := 104 }, size := { width := 6, height := 6 } })
    (.frame sample_frame_fields) .null .null (ev_down 15 15) (ev_move 50 60) (ev_move 50 60)
    { x := 0, y := 0 } { x := 0, y := 0 } rfl rfl rfl rfl rfl

/-! ## C7: the capture region of a move -/

/-- C7, counterexample: the point (50, 50) lies inside the screen location
of the sample toplevel, at (10, 10), 200 wide and 100 high, yet a
left-button-down there leaves the shared state as it was: no widget is
active afterwards. -/
theorem c7_full_rect_not_capture_counterexample :
    (sample_toplevel.screen_location.map (ei_in_rect { x := 50, y := 50 })) = some true ∧
    ei_toplevel_handlefunc sample_backend sample_parent_content globals_init sample_toplevel
        (ev_down 50 50)
      = some (globals_init, sample_toplevel, handler_locks) ∧
    globals_init.active = none := by
  decide

/-- C7, amended: the capture region of a move is the strip at the top of the
toplevel, with the top left corner and the width of its screen location and
a tenth of its height (truncated): a left-button-down makes the toplevel the
active widget when the point lies inside that strip (half-open containment),
and leaves the shared state as it was otherwise. -/
theorem c7_capture_region_is_title_strip (tb : text_backend) (pc : Option ei_rect_t)
    (g : globals) (a : Nat) (w : ei_impl_widget_t) (t : ei_impl_toplevel_t)
    (h s : ei_widget_t) (ev : ei_event_t)
    (hty : ev.type = .ei_ev_mouse_buttondown) (hleft : ev.button = .ei_mouse_button_left) :
    toplevel_capture_rect w
      = { top_left := w.screen_location.top_left,
          size := { width := w.screen_location.size.width,
                    height := Int.tdiv w.screen_location.size.height 10 } } ∧
    ei_toplevel_handlefunc tb pc g (.node a w (.toplevel t) h s) ev
      = some (if ei_in_rect ev.mouse_where (toplevel_capture_rect w) = true
              then { g with active := some a } else g,
          .node a w (.toplevel t) h s, handler_locks) := by
  constructor
  · rfl
  · rw [handle_buttondown tb pc g a w _ h s ev hty]
    simp [hleft]

/-- C7, amended, at the sample toplevel for a button-down at (15, 15). -/
theorem c7_capture_region_is_title_strip_witness :
    toplevel_capture_rect
        (sample_record 1 { top_left := { x := 10, y := 10 }, size := { width := 200, height := 100 } })
      = { top_left := { x := 10, y := 10 },
          size := { width := 200, height := Int.tdiv 100 10 } } ∧
    ei_toplevel_handlefunc sample_backend sample_parent_content globals_init sample_toplevel
        (ev_down 15 15)
      = some (if ei_in_rect (ev_down 15 15).mouse_where
                (toplevel_capture_rect (sample_record 1
                  { top_left := { x := 10, y := 10 }, size := { width := 200, height := 100 } }))
                = true
              then { globals_init with active := some 1 } else globals_init,
          sample_toplevel, handler_locks) :=
  c7_capture_region_is_title_strip sample_backend sample_parent_content globals_init 1
    (sample_record 1 { top_left := { x := 10, y := 10 }, size := { width := 200, height := 100 } })
    sample_toplevel_fields sample_grip .null (ev_down 15 15) rfl rfl

/-! ## C8: what is painted on the picking surface -/

/-- C8, counterexample: drawing the sample toplevel (placed, not the root,
titled) with no caller clip issues the calls listed; the title strip,
(10, 10) 200 by 10, and the title text, clipped to that strip, are painted
on the real surface, while the only call on the picking surface paints the
body, (10, 10) 200 by 100, under the clip of the parent: the list is not in
lockstep. -/
theorem c8_strip_and_title_not_picked_counterexample :
    ∃ ops,
      (toplevel_drawfunc sample_backend sample_parent_content sample_toplevel none).map
          (fun r => r.2) = some ops ∧
      ops =
        [ .ei_draw_frame .real
            { top_left := { x := 10, y := 10 }, size := { width := 200, height := 100 } }
            sample_color .ei_relief_none
            { top_left := { x := 0, y := 0 }, size := { width := 800, height := 600 } },
          .ei_draw_frame .pick
            { top_left := { x := 10, y := 10 }, size := { width := 200, height := 100 } }
            { red := 1, green := 0, blue := 0, alpha := 255 } .ei_relief_none
            { top_left := { x := 0, y := 0 }, size := { width := 800, height := 600 } },
          .ei_draw_frame .real
            { top_left := { x := 10, y := 10 }, size := { width := 200, height := 10 } }
            { red := 140, green := 70, blue := 35, alpha := 255 } .ei_relief_none
            { top_left := { x := 0, y := 0 }, size := { width := 800, height := 600 } },
          .hw_text_create_surface "Toplevel" none none,
          .ei_draw_text .real { x := 10, y := 10 } "Toplevel" none
            (some { red := 221, green := 221, blue := 221, alpha := 255 })
            { top_left := { x := 10, y := 10 }, size := { width := 200, height := 10 } },
          .hw_surface_free_text,
          .ei_impl_widget_draw_children (some 2) none ] ∧
      ¬ picking_lockstep { red := 1, green := 0, blue := 0, alpha := 255 } ops := by
  refine ⟨_, by decide, rfl, ?_⟩
  intro hlock
  obtain ⟨op1, hmem, hmatch⟩ := hlock
    (.ei_draw_text .real { x := 10, y := 10 } "Toplevel" none
      (some { red := 221, green := 221, blue := 221, alpha := 255 })
      { top_left := { x := 10, y := 10 }, size := { width := 200, height := 10 } })
    (by simp) _ rfl
  revert hmatch
  simp only [List.mem_cons, List.mem_singleton, List.not_mem_nil, or_false] at hmem
  rcases hmem with h | h | h | h | h | h | h <;> subst h <;> decide

/-- C8, amended: for a placed widget of class frame or toplevel that is not
the root, and every caller clip, the draw routine either stops on the null
`img_rect` of a frame that has an image and no text, or its calls start with
the body painted on the real surface and the body painted on the picking
surface, the two with the same rectangle (the screen location) and the same
clip (the content rectangle of the parent, intersected with the caller clip
when there is one), the second with the pick colour and no relief; no later
call paints on the picking surface. -/
theorem c8_body_painted_in_lockstep (tb : text_backend) (parent_rect : ei_rect_t)
    (a : Nat) (w : ei_impl_widget_t) (cls : widget_class) (h s : ei_widget_t)
    (clipper : Option ei_rect_t) (pp : ei_impl_placer_params_t)
    (hplaced : w.placer_params = some pp) :
    (wclass_drawfunc tb (some parent_rect) (.node a w cls h s) clipper = none ∧
      ∃ f img, cls = .frame f ∧ f.text = none ∧ f.img = some img ∧ f.img_rect = none) ∨
    ∃ widget1 color relief rest,
      wclass_drawfunc tb (some parent_rect) (.node a w cls h s) clipper
        = some (widget1,
            .ei_draw_frame .real w.screen_location color relief
              (match clipper with
                | some c => ei_rect_intersect parent_rect c
                | none => parent_rect) ::
            .ei_draw_frame .pick w.screen_location w.pick_color .ei_relief_none
              (match clipper with
                | some c => ei_rect_intersect parent_rect c
                | none => parent_rect) :: rest) ∧
      ∀ op ∈ rest, op.on_pick = false := by
  cases cls with
  | frame f =>
    cases htext : f.text with
    | some text =>
      right
      simp only [wclass_drawfunc, frame_drawfunc, hplaced, htext]
      refine ⟨_, _, _, _, rfl, ?_⟩
      simp [draw_op.on_pick]
    | none =>
      cases himg : f.img with
      | none =>
        right
        simp only [wclass_drawfunc, frame_drawfunc, hplaced, htext, himg]
        refine ⟨_, _, _, _, rfl, ?_⟩
        simp [draw_op.on_pick]
      | some img =>
        cases hrect : f.img_rect with
        | none =>
          left
          refine ⟨?_, f, img, rfl, htext, himg, hrect⟩
          simp [wclass_drawfunc, frame_drawfunc, hplaced, htext, himg, hrect]
        | some r =>
          right
          simp only [wclass_drawfunc, frame_drawfunc, hplaced, htext, himg, hrect]
          refine ⟨_, _, _, _, rfl, ?_⟩
          simp [draw_op.on_pick]
  | toplevel t =>
    right
    cases htitle : t.title with
    | some title =>
      simp only [wclass_drawfunc, toplevel_drawfunc, hplaced, htitle]
      refine ⟨_, _, _, _, rfl, ?_⟩
      simp [draw_op.on_pick]
    | none =>
      simp only [wclass_drawfunc, toplevel_drawfunc, hplaced, htitle]
      refine ⟨_, _, _, _, rfl, ?_⟩
      simp [draw_op.on_pick]

/-- C8, amended, at the sample toplevel drawn under the sample clip. -/
theorem c8_body_painted_in_lockstep_witness :
    (wclass_drawfunc sample_backend
        (some { top_left := { x := 0, y := 0 }, size := { width := 800, height := 600 } })
        sample_toplevel (some sample_clip) = none ∧
      ∃ f img, widget_class.toplevel sample_toplevel_fields = .frame f ∧ f.text = none ∧
        f.img = some img ∧ f.img_rect = none) ∨
    ∃ widget1 color relief rest,
      wclass_drawfunc sample_backend
          (some { top_left := { x := 0, y := 0 }, size := { width := 800, height := 600 } })
          sample_toplevel (some sample_clip)
        = some (widget1,
            .ei_draw_frame .real
              (sample_record 1
                { top_left := { x := 10, y := 10 },
                  size := { width := 200, height := 100 } }).screen_location color relief
              (match some sample_clip with
                | some c => ei_rect_intersect
                    { top_left := { x := 0, y := 0 }, size := { width := 800, height := 600 } } c
                | none =>
                    { top_left := { x := 0, y := 0 }, size := { width := 800, height := 600 } }) ::
            .ei_draw_frame .pick
              (sample_record 1
                { top_left := { x := 10, y := 10 },
                  size := { width := 200, height := 100 } }).screen_location
              (sample_record 1
                { top_left := { x := 10, y := 10 },
                  size := { width := 200, height := 100 } }).pick_color .ei_relief_none
              (match some sample_clip with
                | some c => ei_rect_intersect
                    { top_left := { x := 0, y := 0 }, size := { width := 800, height := 600 } } c
                | none =>
                    { top_left := { x := 0, y := 0 }, size := { width := 800, height := 600 } }) ::
            rest) ∧
      ∀ op ∈ rest, op.on_pick = false :=
  c8_body_painted_in_lockstep sample_backend
    { top_left := { x := 0, y := 0 }, size := { width := 800, height := 600 } } 1
    (sample_record 1 { top_left := { x := 10, y := 10 }, size := { width := 200, height := 100 } })
    (.toplevel sample_toplevel_fields) sample_grip .null (some sample_clip)
    placer_params_calloc rfl

/-! ## C9: an unplaced frame -/

/-- C9, at the failing input: the sample frame with no placer parameters is
not the root and has a placed child; `frame_drawfunc` issues no call for it,
so `ei_impl_widget_draw_children` is not invoked and the child is not drawn.
The same frame, placed, ends with that call, and `toplevel_drawfunc` on an
unplaced toplevel issues it. -/
theorem c9_unplaced_frame_skips_children :
    frame_drawfunc sample_backend sample_parent_content sample_unplaced_frame none
      = some (sample_unplaced_frame, []) ∧
    (frame_drawfunc sample_backend sample_parent_content sample_placed_frame none).map
        (fun r => r.2.getLast?)
      = some (some (.ei_impl_widget_draw_children (some 3)
          (some { top_left := { x := 20, y := 20 }, size := { width := 100, height := 80 } }))) ∧
    toplevel_drawfunc sample_backend sample_parent_content sample_unplaced_toplevel none
      = some (sample_unplaced_toplevel, [ .ei_impl_widget_draw_children (some 4) none ]) := by
  decide

/-! ## C10: the clip handed to the children -/

/-- C10, at the failing input: drawing the sample toplevel (placed, not the
root) under the sample clip, (0, 0) 150 by 60, ends with the call that draws
the children under that very clip, although the intersection of the clip
with the content rectangles of the parent and of the toplevel is (10, 10)
140 by 50; `frame_drawfunc` on the placed sample frame hands its children
the narrowed clip, (20, 20) 100 by 40. -/
theorem c10_toplevel_passes_caller_clip :
    (toplevel_drawfunc sample_backend sample_parent_content sample_toplevel
        (some sample_clip)).map (fun r => (r.1.screen_location, r.2.getLast?))
      = some (some { top_left := { x := 10, y := 10 }, size := { width := 140, height := 50 } },
          some (.ei_impl_widget_draw_children (some 2) (some sample_clip))) ∧
    (frame_drawfunc sample_backend sample_parent_content sample_placed_frame
        (some sample_clip)).map (fun r => r.2.getLast?)
      = some (some (.ei_impl_widget_draw_children (some 3)
          (some { top_left := { x := 20, y := 20 }, size := { width := 100, height := 40 } }))) := by
  decide

/-! ## C11: what drawing does to the geometry -/

/-- C13, at the failing inputs: `toplevel_drawfunc` on the sample toplevel
that is not the root, has no placer parameters and has no child reads
`children_head->next_sibling` through the null `children_head`; and
`ei_toplevel_handlefunc`, for a move event delivered to the sample toplevel
while it is the active widget and its `user_data` is null, reads the
abscissa of the anchor through the null pointer, whether the toggle is clear
or set.  With a first child the same draw completes. -/
theorem c13_null_dereferences :
    toplevel_drawfunc sample_backend sample_parent_content sample_childless_toplevel none
      = none ∧
    ei_toplevel_handlefunc sample_backend sample_parent_content
        { active := some 1, moving := false, resize := false } sample_toplevel_no_anchor
        (ev_move 30 40) = none ∧
    ei_toplevel_handlefunc sample_backend sample_parent_content
        { active := some 1, moving := true, resize := false } sample_toplevel_no_anchor
        (ev_move 30 40) = none ∧
    toplevel_drawfunc sample_backend sample_parent_content sample_unplaced_toplevel none
      = some (sample_unplaced_toplevel, [ .ei_impl_widget_draw_children (some 4) none ]) := by
  decide

/-! ## C14: the resize grip -/

/-- C14: drawing a placed toplevel that is not the root and has a first
child completes, and afterwards the screen location of the first child is a
square of side `0.06 * height` (of the toplevel after the draw) whose bottom
right corner is the bottom right corner of the screen location of the
toplevel after the draw, whatever the screen location of the child was. -/
theorem c14_grip_pinned_to_corner (tb : text_backend) (parent_rect : ei_rect_t)
    (a : Nat) (w : ei_impl_widget_t) (t : ei_impl_toplevel_t) (s : ei_widget_t)
    (ga : Nat) (gw : ei_impl_widget_t) (gcls : widget_class) (gh gs : ei_widget_t)
    (clipper : Option ei_rect_t) (pp : ei_impl_placer_params_t)
    (hplaced : w.placer_params = some pp) :
    ∃ w1 gw1 gs1 ops,
      toplevel_drawfunc tb (some parent_rect)
          (.node a w (.toplevel t) (.node ga gw gcls gh gs) s) clipper
        = some (.node a w1 (.toplevel t) (.node ga gw1 gcls gh gs1) s, ops) ∧
      gw1.screen_location.size.width = scale_0_06 w1.screen_location.size.height ∧
      gw1.screen_location.size.height = gw1.screen_location.size.width ∧
      gw1.screen_location.top_left.x + gw1.screen_location.size.width
        = w1.screen_location.top_left.x + w1.screen_location.size.width ∧
      gw1.screen_location.top_left.y + gw1.screen_location.size.height
        = w1.screen_location.top_left.y + w1.screen_location.size.height := by
  simp only [toplevel_drawfunc, hplaced, toplevel_draw_children_loop]
  refine ⟨_, _, _, _, rfl, ?_, ?_, ?_, ?_⟩
  · rfl
  · rfl
  · simp
  · simp

/-- C14 at the sample toplevel drawn under the sample clip. -/
theorem c14_grip_pinned_to_corner_witness :
    ∃ w1 gw1 gs1 ops,
      toplevel_drawfunc sample_backend
          (some { top_left := { x := 0, y := 0 }, size := { width := 800, height := 600 } })
          sample_toplevel (some sample_clip)
        = some (.node 1 w1 (.toplevel sample_toplevel_fields)
            (.node 2 gw1 (.frame sample_frame_fields) .null gs1) .null, ops) ∧
      gw1.screen_location.size.width = scale_0_06 w1.screen_location.size.height ∧
      gw1.screen_location.size.height = gw1.screen_location.size.width ∧
      gw1.screen_location.top_left.x + gw1.screen_location.size.width
        = w1.screen_location.top_left.x + w1.screen_location.size.width ∧
      gw1.screen_location.top_left.y + gw1.screen_location.size.height
        = w1.screen_location.top_left.y + w1.screen_location.size.height :=
  c14_grip_pinned_to_corner sample_backend
    { top_left := { x := 0, y := 0 }, size := { width := 800, height := 600 } } 1
    (sample_record 1 { top_left := { x := 10, y := 10 }, size := { width := 200, height := 100 } })
    sample_toplevel_fields .null 2
    (sample_record 2 { top_left := { x := 204, y := 104 }, size := { width := 6, height := 6 } })
    (.frame sample_frame_fields) .null .null (some sample_clip) placer_params_calloc rfl

/-! ## C16: placer parameters after an update -/

theorem moving_update_children_placed (h : ei_widget_t) (dx dy : Int) :
    (chain_widgets (moving_update_children h dx dy)).map (fun p => (p.1, p.2.placer_params))
      = (chain_widgets h).map (fun p => (p.1, some placer_params_calloc)) := by
  induction h with
  | null => rfl
  | node a w c h s ih_h ih_s =>
    simp only [moving_update_children, chain_widgets, List.map_cons, List.map_append, ih_h, ih_s]
    rfl

theorem resizing_update_fields_placed (cls : widget_class) (w : ei_impl_widget_t)
    (dx dy : Int) :
    (resizing_update_fields cls w dx dy).placer_params = some placer_params_calloc := by
  cases cls <;> rfl

theorem resizing_update_children_placed (h : ei_widget_t) (dx dy : Int) :
    (chain_widgets (resizing_update_children h dx dy)).map (fun p => (p.1, p.2.placer_params))
      = (chain_widgets h).map (fun p => (p.1, some placer_params_calloc)) := by
  induction h with
  | null => rfl
  | node a w c h s ih_h ih_s =>
    simp only [resizing_update_children, chain_widgets, List.map_cons, List.map_append, ih_h,
      ih_s, resizing_update_fields_placed]

/-- C16: after `ei_toplevel_moving_update`, and after
`ei_toplevel_resizing_update`, the widget and every widget of its subtree,
placed before the call or not, has placer parameters, and they are the
all-zero record of `calloc`. -/
theorem c16_update_places_subtree (widget : ei_widget_t) (dx dy : Int) :
    subtree_placer_params (ei_toplevel_moving_update widget dx dy)
      = (subtree_widgets widget).map (fun p => (p.1, some placer_params_calloc)) ∧
    subtree_placer_params (ei_toplevel_resizing_update widget dx dy)
      = (subtree_widgets widget).map (fun p => (p.1, some placer_params_calloc)) := by
  cases widget with
  | null => exact ⟨rfl, rfl⟩
  | node a w c h s =>
    constructor
    · simp only [subtree_placer_params, ei_toplevel_moving_update, subtree_widgets,
        List.map_cons, moving_update_children_placed]
      rfl
    · simp only [subtree_placer_params, ei_toplevel_resizing_update, subtree_widgets,
        List.map_cons, moving_update_children_placed, resizing_update_children_placed,
        resizing_update_fields_placed]

/-! ## C15: the pixel value of a colour -/

/-- One iteration of the loop adds, modulo `2^32`, the channels of that
index. -/
theorem map_rgba_iteration_eq (ir ig ib ia : Int) (color : ei_color_t) (acc i : Nat)
    (hacc : acc < 2 ^ 32) :
    map_rgba_iteration ir ig ib ia color acc i
      = (acc + channel_contribution ir ig ib ia color i) % 2 ^ 32 := by
  unfold map_rgba_iteration channel_contribution map_rgba_add
  generalize color.red * 2 ^ (8 * i) = x1
  generalize color.green * 2 ^ (8 * i) = x2
  generalize color.blue * 2 ^ (8 * i) = x3
  generalize color.alpha * 2 ^ (8 * i) = x4
  norm_num at hacc ⊢
  split_ifs <;> omega

/-- The four iterations together add the four contributions modulo
`2^32`. -/
theorem map_rgba_sum (ir ig ib ia : Int) (color : ei_color_t) :
    ei_impl_map_rgba ir ig ib ia color
      = (channel_contribution ir ig ib ia color 0 + channel_contribution ir ig ib ia color 1
          + channel_contribution ir ig ib ia color 2
          + channel_contribution ir ig ib ia color 3) % 2 ^ 32 := by
  have hm : ∀ n : Nat, n % 2 ^ 32 < 2 ^ 32 := fun n => Nat.mod_lt _ (by norm_num)
  show map_rgba_iteration ir ig ib ia color
      (map_rgba_iteration ir ig ib ia color
        (map_rgba_iteration ir ig ib ia color
          (map_rgba_iteration ir ig ib ia color 0 0) 1) 2) 3 = _
  rw [map_rgba_iteration_eq ir ig ib ia color 0 0 (by norm_num)]
  rw [map_rgba_iteration_eq ir ig ib ia color _ 1 (hm _)]
  rw [map_rgba_iteration_eq ir ig ib ia color _ 2 (hm _)]
  rw [map_rgba_iteration_eq ir ig ib ia color _ 3 (hm _)]
  generalize channel_contribution ir ig ib ia color 0 = c0
  generalize channel_contribution ir ig ib ia color 1 = c1
  generalize channel_contribution ir ig ib ia color 2 = c2
  generalize channel_contribution ir ig ib ia color 3 = c3
  norm_num

/-- Over the four iterations a channel is added once, in the byte of its
index, when the index is in 0..3, and not at all otherwise. -/
theorem channel_byte_sum (idx : Int) (channel : Nat) :
    (if idx = ((0 : Nat) : Int) then channel * 2 ^ (8 * 0) else 0)
      + (if idx = ((1 : Nat) : Int) then channel * 2 ^ (8 * 1) else 0)
      + (if idx = ((2 : Nat) : Int) then channel * 2 ^ (8 * 2) else 0)
      + (if idx = ((3 : Nat) : Int) then channel * 2 ^ (8 * 3) else 0)
      = channel_byte idx channel := by
  unfold channel_byte
  by_cases h : 0 ≤ idx ∧ idx ≤ 3
  · obtain ⟨h0, h3⟩ := h
    interval_cases idx <;> simp
  · have h0 : idx ≠ 0 := by omega
    have h1 : idx ≠ 1 := by omega
    have h2 : idx ≠ 2 := by omega
    have h3 : idx ≠ 3 := by omega
    simp [h, h0, h1, h2, h3]

/-- The pixel value is the sum of the bytes of the four channels, modulo
`2^32`. -/
theorem map_rgba_bytes (ir ig ib ia : Int) (color : ei_color_t) :
    ei_impl_map_rgba ir ig ib ia color
      = (channel_byte ir color.red + channel_byte ig color.green
          + channel_byte ib color.blue + channel_byte ia color.alpha) % 2 ^ 32 := by
  rw [map_rgba_sum, ← channel_byte_sum ir, ← channel_byte_sum ig, ← channel_byte_sum ib,
    ← channel_byte_sum ia]
  unfold channel_contribution
  congr 1
  ring

/-- C15: for channels below 256 and indices `ir`, `ig`, `ib` that are
distinct values of 0..3, `ei_impl_map_rgba` returns, modulo `2^32`, the sum
of the red, green and blue channels shifted to their bytes, plus the alpha
channel shifted to its byte when `ia` is in 0..3; when `ia` is outside 0..3
the result does not depend on the alpha channel; and when `ia` is in 0..3 and
differs from the three other indices, two colours with the same result are
equal. -/
theorem c15_map_rgba (ir ig ib ia : Int) (color : ei_color_t)
    (hir : 0 ≤ ir ∧ ir ≤ 3) (hig : 0 ≤ ig ∧ ig ≤ 3) (hib : 0 ≤ ib ∧ ib ≤ 3)
    (hrg : ir ≠ ig) (hrb : ir ≠ ib) (hgb : ig ≠ ib)
    (hred : color.red < 256) (hgreen : color.green < 256) (hblue : color.blue < 256)
    (halpha : color.alpha < 256) :
    ei_impl_map_rgba ir ig ib ia color
      = (color.red * 2 ^ (8 * ir.toNat) + color.green * 2 ^ (8 * ig.toNat)
          + color.blue * 2 ^ (8 * ib.toNat)
          + (if 0 ≤ ia ∧ ia ≤ 3 then color.alpha * 2 ^ (8 * ia.toNat) else 0)) % 2 ^ 32 ∧
    ((ia < 0 ∨ 3 < ia) → ∀ alpha : Nat,
      ei_impl_map_rgba ir ig ib ia { color with alpha := alpha }
        = ei_impl_map_rgba ir ig ib ia color) ∧
    ((0 ≤ ia ∧ ia ≤ 3) → ia ≠ ir → ia ≠ ig → ia ≠ ib → ∀ other : ei_color_t,
      other.red < 256 → other.green < 256 → other.blue < 256 → other.alpha < 256 →
      ei_impl_map_rgba ir ig ib ia other = ei_impl_map_rgba ir ig ib ia color →
      other = color) := by
  refine ⟨?_, ?_, ?_⟩
  · rw [map_rgba_bytes]
    simp only [channel_byte, hir, hig, hib, and_self, if_true]
  · intro hia alpha
    have hout : ¬ (0 ≤ ia ∧ ia ≤ 3) := by omega
    rw [map_rgba_bytes, map_rgba_bytes]
    simp only [channel_byte, hout, if_false]
  · intro hia har hag hab other hor hog hob hoa heq
    rw [map_rgba_bytes, map_rgba_bytes] at heq
    simp only [channel_byte, hir, hig, hib, hia, and_self, if_true] at heq
    obtain ⟨r, g, b, al⟩ := color
    obtain ⟨r2, g2, b2, al2⟩ := other
    simp only at hred hgreen hblue halpha hor hog hob hoa heq
    simp only [ei_color_t.mk.injEq]
    obtain ⟨hir0, hir3⟩ := hir
    obtain ⟨hig0, hig3⟩ := hig
    obtain ⟨hib0, hib3⟩ := hib
    obtain ⟨hia0, hia3⟩ := hia
    have t0 : Int.toNat 0 = 0 := rfl
    have t1 : Int.toNat 1 = 1 := rfl
    have t2 : Int.toNat 2 = 2 := rfl
    have t3 : Int.toNat 3 = 3 := rfl
    interval_cases ir <;> interval_cases ig <;> interval_cases ib <;>
      first
      | (exfalso; omega)
      | (interval_cases ia <;>
          first
          | (exfalso; omega)
          | (simp only [t0, t1, t2, t3] at heq; norm_num at heq; omega))

/-- C15 for the channel order blue, green, red, alpha (indices 2, 1, 0, 3)
and the sample colour. -/
theorem c15_map_rgba_witness :
    ei_impl_map_rgba 2 1 0 3 sample_color
      = (sample_color.red * 2 ^ (8 * (2 : Int).toNat)
          + sample_color.green * 2 ^ (8 * (1 : Int).toNat)
          + sample_color.blue * 2 ^ (8 * (0 : Int).toNat)
          + (if (0 : Int) ≤ 3 ∧ (3 : Int) ≤ 3 then sample_color.alpha * 2 ^ (8 * (3 : Int).toNat)
             else 0)) % 2 ^ 32 ∧
    (((3 : Int) < 0 ∨ (3 : Int) < 3) → ∀ alpha : Nat,
      ei_impl_map_rgba 2 1 0 3 { sample_color with alpha := alpha }
        = ei_impl_map_rgba 2 1 0 3 sample_color) ∧
    (((0 : Int) ≤ 3 ∧ (3 : Int) ≤ 3) → (3 : Int) ≠ 2 → (3 : Int) ≠ 1 → (3 : Int) ≠ 0 →
      ∀ other : ei_color_t,
      other.red < 256 → other.green < 256 → other.blue < 256 → other.alpha < 256 →
      ei_impl_map_rgba 2 1 0 3 other = ei_impl_map_rgba 2 1 0 3 sample_color →
      other = sample_color) :=
  c15_map_rgba 2 1 0 3 sample_color (by decide) (by decide) (by decide) (by decide)
    (by decide) (by decide) (by decide) (by decide) (by decide) (by decide)

/-! ## C17: placer parameters after `ei_frame_configure` -/

/-- C17: `ei_frame_configure` on a frame completes for every combination of
present and absent arguments; when the frame has a parent it has placer
parameters afterwards, whether it had any before; when the frame has no
parent its placer parameters are what they were. -/
theorem c17_configure_places_frame (fresh : ei_impl_placer_params_t) (a : Nat)
    (w : ei_impl_widget_t) (frame : ei_impl_frame_t) (h s : ei_widget_t)
    (args : frame_configure_args) :
    (∃ widget1 pp,
      ei_frame_configure true fresh (.node a w (.frame frame) h s) args = some widget1 ∧
      widget1.placer_params = some pp) ∧
    (∃ widget1,
      ei_frame_configure false fresh (.node a w (.frame frame) h s) args = some widget1 ∧
      widget1.placer_params = w.placer_params) := by
  constructor
  · exact ⟨_, _, rfl, rfl⟩
  · exact ⟨_, rfl, rfl⟩

/-- The sample frame without placer parameters, configured with every
argument absent while it has a parent, gets the uninitialised block with its
width and height set to the requested size. -/
theorem configure_nothing_example :
    (ei_frame_configure true sample_uninitialised_params sample_unplaced_frame
        configure_nothing).map (fun r => r.placer_params)
      = some (some { sample_uninitialised_params with width := 100, height := 80 }) ∧
    (ei_frame_configure false sample_uninitialised_params sample_unplaced_frame
        configure_nothing).map (fun r => r.placer_params)
      = some none := by
  decide
